import Mathlib

/-!
Verification development for the 2W pairing and authenticated-command engine
of the iohomecontrol gateway controller.

Bytes are modelled as `Nat` values kept below 256 by explicit masking where
the C code relies on `uint8_t` wrap-around.  Fixed-size C arrays are modelled
as `List Nat`.
-/

/-! ## Byte helpers -/

/-- Left-rotate an 8-bit value by one position (`rotl8(x, 1)` in the spec). -/
def rotl8 (x : Nat) : Nat := ((x <<< 1) &&& 0xFF) ||| (x >>> 7)

/-! ## AES-128 block encryption

Modelled from the spec: the crypto library (`Aes.h`, tiny-AES) is not part of
the sources under review; the spec requires plain AES-128-ECB single-block
encryption, so the FIPS-197 cipher is implemented here directly. -/

/-- Modelled from the spec: the AES substitution box of FIPS-197. -/
def aesSbox : List Nat :=
  [0x63, 0x7c, 0x77, 0x7b, 0xf2, 0x6b, 0x6f, 0xc5, 0x30, 0x01, 0x67, 0x2b, 0xfe, 0xd7, 0xab, 0x76,
   0xca, 0x82, 0xc9, 0x7d, 0xfa, 0x59, 0x47, 0xf0, 0xad, 0xd4, 0xa2, 0xaf, 0x9c, 0xa4, 0x72, 0xc0,
   0xb7, 0xfd, 0x93, 0x26, 0x36, 0x3f, 0xf7, 0xcc, 0x34, 0xa5, 0xe5, 0xf1, 0x71, 0xd8, 0x31, 0x15,
   0x04, 0xc7, 0x23, 0xc3, 0x18, 0x96, 0x05, 0x9a, 0x07, 0x12, 0x80, 0xe2, 0xeb, 0x27, 0xb2, 0x75,
   0x09, 0x83, 0x2c, 0x1a, 0x1b, 0x6e, 0x5a, 0xa0, 0x52, 0x3b, 0xd6, 0xb3, 0x29, 0xe3, 0x2f, 0x84,
   0x53, 0xd1, 0x00, 0xed, 0x20, 0xfc, 0xb1, 0x5b, 0x6a, 0xcb, 0xbe, 0x39, 0x4a, 0x4c, 0x58, 0xcf,
   0xd0, 0xef, 0xaa, 0xfb, 0x43, 0x4d, 0x33, 0x85, 0x45, 0xf9, 0x02, 0x7f, 0x50, 0x3c, 0x9f, 0xa8,
   0x51, 0xa3, 0x40, 0x8f, 0x92, 0x9d, 0x38, 0xf5, 0xbc, 0xb6, 0xda, 0x21, 0x10, 0xff, 0xf3, 0xd2,
   0xcd, 0x0c, 0x13, 0xec, 0x5f, 0x97, 0x44, 0x17, 0xc4, 0xa7, 0x7e, 0x3d, 0x64, 0x5d, 0x19, 0x73,
   0x60, 0x81, 0x4f, 0xdc, 0x22, 0x2a, 0x90, 0x88, 0x46, 0xee, 0xb8, 0x14, 0xde, 0x5e, 0x0b, 0xdb,
   0xe0, 0x32, 0x3a, 0x0a, 0x49, 0x06, 0x24, 0x5c, 0xc2, 0xd3, 0xac, 0x62, 0x91, 0x95, 0xe4, 0x79,
   0xe7, 0xc8, 0x37, 0x6d, 0x8d, 0xd5, 0x4e, 0xa9, 0x6c, 0x56, 0xf4, 0xea, 0x65, 0x7a, 0xae, 0x08,
   0xba, 0x78, 0x25, 0x2e, 0x1c, 0xa6, 0xb4, 0xc6, 0xe8, 0xdd, 0x74, 0x1f, 0x4b, 0xbd, 0x8b, 0x8a,
   0x70, 0x3e, 0xb5, 0x66, 0x48, 0x03, 0xf6, 0x0e, 0x61, 0x35, 0x57, 0xb9, 0x86, 0xc1, 0x1d, 0x9e,
   0xe1, 0xf8, 0x98, 0x11, 0x69, 0xd9, 0x8e, 0x94, 0x9b, 0x1e, 0x87, 0xe9, 0xce, 0x55, 0x28, 0xdf,
   0x8c, 0xa1, 0x89, 0x0d, 0xbf, 0xe6, 0x42, 0x68, 0x41, 0x99, 0x2d, 0x0f, 0xb0, 0x54, 0xbb, 0x16]

/-- S-box substitution of a single byte. -/
def subByte (b : Nat) : Nat := aesSbox.getD b 0

/-- Multiplication by 2 in GF(2^8) with the AES reduction polynomial. -/
def xtime (x : Nat) : Nat :=
  if x &&& 0x80 == 0 then (x <<< 1) &&& 0xFF else ((x <<< 1) &&& 0xFF) ^^^ 0x1B

/-- The AES round constants for AES-128 key expansion. -/
def aesRcon : List Nat := [0x01, 0x02, 0x04, 0x08, 0x10, 0x20, 0x40, 0x80, 0x1b, 0x36]

/-- One step of the AES-128 key schedule: append the next 4-byte word. -/
def aesNextWord (ws : List (List Nat)) : List (List Nat) :=
  let i := ws.length
  let prev := ws.getD (i - 1) []
  let back4 := ws.getD (i - 4) []
  let t :=
    if i % 4 == 0 then
      let rot := [prev.getD 1 0, prev.getD 2 0, prev.getD 3 0, prev.getD 0 0]
      let sub := rot.map subByte
      [sub.getD 0 0 ^^^ aesRcon.getD (i / 4 - 1) 0, sub.getD 1 0, sub.getD 2 0, sub.getD 3 0]
    else prev
  ws ++ [[back4.getD 0 0 ^^^ t.getD 0 0, back4.getD 1 0 ^^^ t.getD 1 0,
          back4.getD 2 0 ^^^ t.getD 2 0, back4.getD 3 0 ^^^ t.getD 3 0]]

/-- AES-128 key expansion: the 44 four-byte words of the schedule. -/
def aesKeyWords (key : List Nat) : List (List Nat) :=
  aesNextWord^[40]
    [[key.getD 0 0, key.getD 1 0, key.getD 2 0, key.getD 3 0],
     [key.getD 4 0, key.getD 5 0, key.getD 6 0, key.getD 7 0],
     [key.getD 8 0, key.getD 9 0, key.getD 10 0, key.getD 11 0],
     [key.getD 12 0, key.getD 13 0, key.getD 14 0, key.getD 15 0]]

/-- The 16-byte round key for round `r` (0..10). -/
def aesRoundKey (key : List Nat) (r : Nat) : List Nat :=
  let ws := aesKeyWords key
  ws.getD (4 * r) [] ++ ws.getD (4 * r + 1) [] ++ ws.getD (4 * r + 2) [] ++ ws.getD (4 * r + 3) []

/-- XOR a 16-byte state with a 16-byte round key. -/
def addRoundKey (st rk : List Nat) : List Nat := st.zipWith (· ^^^ ·) rk

/-- SubBytes over the whole state. -/
def subBytes (st : List Nat) : List Nat := st.map subByte

/-- ShiftRows on the flat column-major state (`st[r + 4c]`). -/
def shiftRows (st : List Nat) : List Nat :=
  (List.range 16).map fun i =>
    let r := i % 4
    let c := i / 4
    st.getD (r + 4 * ((c + r) % 4)) 0

/-- MixColumns on the flat column-major state. -/
def mixColumns (st : List Nat) : List Nat :=
  (List.range 16).map fun i =>
    let c := i / 4
    let a0 := st.getD (4 * c) 0
    let a1 := st.getD (4 * c + 1) 0
    let a2 := st.getD (4 * c + 2) 0
    let a3 := st.getD (4 * c + 3) 0
    match i % 4 with
    | 0 => xtime a0 ^^^ (xtime a1 ^^^ a1) ^^^ a2 ^^^ a3
    | 1 => a0 ^^^ xtime a1 ^^^ (xtime a2 ^^^ a2) ^^^ a3
    | 2 => a0 ^^^ a1 ^^^ xtime a2 ^^^ (xtime a3 ^^^ a3)
    | _ => (xtime a0 ^^^ a0) ^^^ a1 ^^^ a2 ^^^ xtime a3

/-- One full middle round of AES. -/
def aesRound (rk st : List Nat) : List Nat :=
  addRoundKey (mixColumns (shiftRows (subBytes st))) rk

/-- Modelled from the spec: AES-128-ECB encryption of a single 16-byte block
(`AES_ECB_encrypt` of the crypto library, which is outside the reviewed
sources). -/
def aesEncryptBlock (key block : List Nat) : List Nat :=
  let st0 := addRoundKey block (aesRoundKey key 0)
  let st9 := (List.range 9).foldl (fun st r => aesRound (aesRoundKey key (r + 1)) st) st0
  addRoundKey (shiftRows (subBytes st9)) (aesRoundKey key 10)

/-- Modelled from the spec: the compile-time 16-byte transfer key
(`transfert_key` of the crypto library, which is outside the reviewed
sources).  The spec does not record the constant's value; a fixed placeholder
is used, and no theorem below depends on the value. -/
def transfertKey : List Nat :=
  [0x00, 0x01, 0x02, 0x03, 0x04, 0x05, 0x06, 0x07, 0x08, 0x09, 0x0a, 0x0b, 0x0c, 0x0d, 0x0e, 0x0f]

/-! ## The running checksum and IV construction -/

/-- Modelled from the spec: `computeChecksum` of the crypto library updates
the two-byte accumulator per input byte as `c1 = rotl8(c1 ^ b, 1); c2 = c2 + c1`. -/
def computeChecksum (b c1 c2 : Nat) : Nat × Nat :=
  let c1n := rotl8 (c1 ^^^ b)
  (c1n, (c2 + c1n) &&& 0xFF)

/-- The final accumulator of the running checksum over a whole byte sequence,
starting from `(0, 0)`. -/
def checksumFold (frame : List Nat) : Nat × Nat :=
  frame.foldl (fun p b => computeChecksum b p.1 p.2) (0, 0)

/-- The per-byte loop of `encrypt_2W_key` (test/test_native/encryption_tests.cpp):
walk the frame data updating `iv[8]`/`iv[9]` with the running checksum and
copying the first eight frame bytes into `iv[0..7]`.  `i` is the loop index. -/
def ivEncryptLoop : List Nat → Nat → List Nat → List Nat
  | [], _, iv => iv
  | b :: rest, i, iv =>
    let c := computeChecksum b (iv.getD 8 0) (iv.getD 9 0)
    let iv1 := (iv.set 8 c.1).set 9 c.2
    let iv2 := if i < 8 then iv1.set i b else iv1
    ivEncryptLoop rest (i + 1) iv2

/-- The padding loop of `encrypt_2W_key`: fill `iv[j..7]` with `0x55`. -/
def ivPad55 (iv : List Nat) (j : Nat) : List Nat :=
  if j < 8 then ivPad55 (iv.set j 0x55) (j + 1) else iv
termination_by 8 - j

/-- The IV construction of `encrypt_2W_key`: frame walk, `0x55` padding when
the frame is shorter than eight bytes, then the challenge at `iv[10..15]`. -/
def constructIVsrc (frame challenge : List Nat) : List Nat :=
  let iv0 := List.replicate 16 0
  let iv1 := ivEncryptLoop frame 0 iv0
  let iv2 := if frame.length < 8 then ivPad55 iv1 frame.length else iv1
  (List.range 6).foldl (fun iv i => iv.set (10 + i) (challenge.getD i 0)) iv2

/-- A direct transcription of the spec's words for the IV layout: the first
eight frame bytes padded with `0x55`, the final checksum accumulator at
positions 8 and 9, and the six challenge bytes at positions 10..15.  Used to
compare `constructIVsrc` against the specified construction. -/
def ivSpec (frame challenge : List Nat) : List Nat :=
  (List.range 8).map (fun i => if i < frame.length then frame.getD i 0 else 0x55)
    ++ [(checksumFold frame).1, (checksumFold frame).2]
    ++ (List.range 6).map (fun i => challenge.getD i 0)

/-- `encrypt_2W_key` (test/test_native/encryption_tests.cpp): build the IV
from the frame data and challenge, AES-encrypt it under the transfer key, and
XOR the result with the 16-byte target key. -/
def encrypt2WKey (challenge frame key : List Nat) : List Nat :=
  let iv := constructIVsrc frame challenge
  let encryptedIv := aesEncryptBlock transfertKey iv
  (List.range 16).map fun i => encryptedIv.getD i 0 ^^^ key.getD i 0

/-- Modelled from the spec: the peer unwraps the transported value by
recomputing the IV identically, AES-encrypting it under the transfer key and
XOR-ing.  (The peer side is device firmware, outside the reviewed sources.) -/
def unwrap2WKey (challenge frame transported : List Nat) : List Nat :=
  let iv := constructIVsrc frame challenge
  let encryptedIv := aesEncryptBlock transfertKey iv
  (List.range 16).map fun i => transported.getD i 0 ^^^ encryptedIv.getD i 0

/-- Modelled from the spec: `iohcCrypto::create_2W_hmac` (crypto library,
outside the reviewed sources) builds the IV from the frame body and the
challenge, encrypts it under the 16-byte system key with AES-128-ECB, and the
MAC is the first six bytes of the ciphertext. -/
def create2WHmac (challenge systemKey frameBody : List Nat) : List Nat :=
  (aesEncryptBlock systemKey (constructIVsrc frameBody challenge)).take 6

/-! ## Device model (include/iohcDevice2W.h) -/

/-- Device pairing states (`enum class PairingState`). -/
inductive PairingState where
  | UNPAIRED
  | DISCOVERING
  | ALIVE_CHECK
  | BROADCASTING_2A
  | WAITING_BEFORE_LEARNING
  | LEARNING_MODE
  | CHALLENGE_SENT
  | CHALLENGE_RECEIVED
  | PAIRING_CONFIRMED
  | ASKING_CHALLENGE
  | KEY_EXCHANGED
  | PAIRED
  | PAIRING_FAILED
  deriving DecidableEq, Repr

open PairingState

/-- `Device2W::isPairing` — the subset of states the header treats as
"pairing in progress".  Note it omits `BROADCASTING_2A`, `CHALLENGE_SENT`
and `KEY_EXCHANGED`. -/
def PairingState.isPairing : PairingState → Bool
  | DISCOVERING => true
  | ALIVE_CHECK => true
  | WAITING_BEFORE_LEARNING => true
  | LEARNING_MODE => true
  | CHALLENGE_RECEIVED => true
  | PAIRING_CONFIRMED => true
  | ASKING_CHALLENGE => true
  | _ => false

/-- The terminal states of the spec's serial-pairing invariant. -/
def PairingState.isTerminal : PairingState → Bool
  | UNPAIRED => true
  | PAIRED => true
  | PAIRING_FAILED => true
  | _ => false

/-- `Device2W::getPairingStateStr`. -/
def stateStr : PairingState → String
  | UNPAIRED => "UNPAIRED"
  | DISCOVERING => "DISCOVERING"
  | ALIVE_CHECK => "ALIVE_CHECK"
  | BROADCASTING_2A => "BROADCASTING_2A"
  | WAITING_BEFORE_LEARNING => "WAITING_BEFORE_LEARNING"
  | LEARNING_MODE => "LEARNING_MODE"
  | CHALLENGE_SENT => "CHALLENGE_SENT"
  | CHALLENGE_RECEIVED => "CHALLENGE_RECEIVED"
  | PAIRING_CONFIRMED => "PAIRING_CONFIRMED"
  | ASKING_CHALLENGE => "ASKING_CHALLENGE"
  | KEY_EXCHANGED => "KEY_EXCHANGED"
  | PAIRED => "PAIRED"
  | PAIRING_FAILED => "PAIRING_FAILED"

/-- The `pairing_state` parse chain of `Device2W::fromJson`.  Strings not in
the chain — including `BROADCASTING_2A`, `WAITING_BEFORE_LEARNING`,
`CHALLENGE_SENT` and `ASKING_CHALLENGE` — fall through to `UNPAIRED`. -/
def parseState (s : String) : PairingState :=
  if s = "PAIRED" then PAIRED
  else if s = "KEY_EXCHANGED" then KEY_EXCHANGED
  else if s = "PAIRING_CONFIRMED" then PAIRING_CONFIRMED
  else if s = "CHALLENGE_RECEIVED" then CHALLENGE_RECEIVED
  else if s = "LEARNING_MODE" then LEARNING_MODE
  else if s = "ALIVE_CHECK" then ALIVE_CHECK
  else if s = "DISCOVERING" then DISCOVERING
  else if s = "PAIRING_FAILED" then PAIRING_FAILED
  else UNPAIRED

/-- A three-byte device address. -/
structure Addr where
  b0 : Nat
  b1 : Nat
  b2 : Nat
  deriving DecidableEq, Repr

/-- `struct DeviceCapabilities`, including the decoded multi-info fields used
by iohcDevice2W.cpp. -/
structure DeviceCapabilities where
  nodeType : Nat
  nodeSubtype : Nat
  manufacturer : Nat
  multiInfo : Nat
  timestamp : Nat
  name : String
  generalInfo1 : List Nat
  hasGeneralInfo1 : Bool
  generalInfo2 : List Nat
  hasGeneralInfo2 : Bool
  actuatorTurnaroundTime : Nat
  syncCtrlGrp : Bool
  rfSupport : Bool
  ioMembership : Bool
  powerSaveMode : Nat
  deriving DecidableEq, Repr

/-- Constructor defaults of `DeviceCapabilities` (zeroed arrays, empty name,
decoded fields as parsed defaults). -/
def defaultCapabilities : DeviceCapabilities :=
  { nodeType := 0, nodeSubtype := 0, manufacturer := 0, multiInfo := 0,
    timestamp := 0, name := "",
    generalInfo1 := List.replicate 14 0, hasGeneralInfo1 := false,
    generalInfo2 := List.replicate 16 0, hasGeneralInfo2 := false,
    actuatorTurnaroundTime := 0, syncCtrlGrp := false,
    rfSupport := true, ioMembership := true, powerSaveMode := 0 }

/-- `class Device2W` — the per-device record. -/
structure Device where
  nodeAddress : Addr
  pairingState : PairingState
  lastSeen : Nat
  pairingStartTime : Nat
  systemKey : List Nat
  hasSystemKey : Bool
  sessionKey : List Nat
  hasSessionKey : Bool
  sequenceNumber : Nat
  stackKey : List Nat
  hasStackKey : Bool
  lastChallenge : List Nat
  lastResponse : List Nat
  hasPendingChallenge : Bool
  lastCommand : List Nat
  lastCommandLen : Nat
  lastCommandByte : Nat
  capabilities : DeviceCapabilities
  description : String
  deriving DecidableEq, Repr

/-- The `Device2W` constructor: everything zeroed / cleared. -/
def mkDevice (addr : Addr) : Device :=
  { nodeAddress := addr, pairingState := UNPAIRED, lastSeen := 0,
    pairingStartTime := 0,
    systemKey := List.replicate 16 0, hasSystemKey := false,
    sessionKey := List.replicate 16 0, hasSessionKey := false,
    sequenceNumber := 0,
    stackKey := List.replicate 16 0, hasStackKey := false,
    lastChallenge := List.replicate 6 0, lastResponse := List.replicate 6 0,
    hasPendingChallenge := false,
    lastCommand := List.replicate 32 0, lastCommandLen := 0, lastCommandByte := 0,
    capabilities := defaultCapabilities, description := "" }

/-- `Device2W::isPairing` on the device. -/
def Device.isPairing (d : Device) : Bool := d.pairingState.isPairing

/-- `Device2W::hasPairingTimedOut` — 30-second umbrella, applied only to the
`isPairing` subset of states. -/
def Device.hasPairingTimedOut (d : Device) (now : Nat) : Bool :=
  if ¬ d.isPairing then false else decide (now - d.pairingStartTime > 30000)

/-! ## Durable JSON mirror (Device2W::toJson / Device2W::fromJson) -/

/-- Hex encoding of a byte sequence as the list of its hex digits
(`%02x` per byte in the C code; a digit is modelled by its value 0..15). -/
def hexOfBytes (bs : List Nat) : List Nat :=
  bs.flatMap fun b => [b / 16, b % 16]

/-- Hex decoding: consume digit pairs (`strtoul` on two-character substrings). -/
def bytesOfHex : List Nat → List Nat
  | h :: l :: rest => (16 * h + l) :: bytesOfHex rest
  | _ => []

/-- `DeviceCapabilities::getManufacturerName`. -/
def getManufacturerName (m : Nat) : String :=
  if m = 0x00 then "No Type"
  else if m = 0x01 then "Velux"
  else if m = 0x02 then "Somfy"
  else if m = 0x03 then "Honeywell"
  else if m = 0x04 then "Hoermann"
  else if m = 0x05 then "ASSA ABLOY"
  else if m = 0x06 then "Niko"
  else if m = 0x07 then "Window Master"
  else if m = 0x08 then "Renson"
  else if m = 0x09 then "CIAT"
  else if m = 0x0A then "Secuyou"
  else if m = 0x0B then "Overkiz"
  else if m = 0x0C then "Atlantic Group"
  else if m = 0x0D then "Zehnder Group"
  else "Unknown"

/-- `DeviceCapabilities::getNodeTypeName` — the combined type/subtype switch.
Only the default arm matters for the registry round-trip (this field is
written to the JSON but never read back); the named arms are kept as a
lookup over the combined code. -/
def getNodeTypeName (nodeType nodeSubtype : Nat) : String :=
  let combined := (nodeType <<< 6) ||| nodeSubtype
  if combined = 0x0000 then "All Nodes except Controller"
  else if combined = 0x0033 then "Smart Plug"
  else if combined = 0x0040 then "Interior Venetian Blind (IVB)"
  else if combined = 0x006A then "Light Sensor"
  else if combined = 0x0080 then "Roller Shutter"
  else if combined = 0x0081 then "Roller Shutter with Adjustable Slats"
  else if combined = 0x0082 then "Roller Shutter with Projection"
  else if combined = 0x00C0 then "Vertical Exterior Awning (Terrace)"
  else if combined = 0x00CA then "Window Covering Device"
  else if combined = 0x00CB then "Window Covering Controller"
  else if combined = 0x0100 then "Window Opener"
  else if combined = 0x0101 then "Window Opener with Integrated Rain Sensor"
  else if combined = 0x012E then "Temp and Humidity Sensor"
  else if combined = 0x0140 then "Garage Door Opener"
  else if combined = 0x017A then "Garage Door Opener: Open/Close Only"
  else if combined = 0x0180 then "Light: On/Off + Dimming"
  else if combined = 0x0192 then "IAS Zone"
  else if combined = 0x01BA then "Light: On/Off Only"
  else if combined = 0x01C0 then "Gate Opener"
  else if combined = 0x01FA then "Gate Opener: Open/Close Only"
  else if combined = 0x0200 then "Rolling Door Opener"
  else if combined = 0x0240 then "Door Lock / Motorized Bolt"
  else if combined = 0x0241 then "Window Lock"
  else if combined = 0x0280 then "Vertical Interior Blind"
  else if combined = 0x0290 then "Secure Configuration Device (SCD)"
  else if combined = 0x0300 then "Beacon (Gateway/Repeater)"
  else if combined = 0x0340 then "Dual Roller Shutter"
  else if combined = 0x0380 then "Heating Temperature Interface"
  else if combined = 0x03C0 then "Switch: On/Off"
  else if combined = 0x0400 then "Horizontal Awning"
  else if combined = 0x0401 then "Pergola Rail Guided Awning"
  else if combined = 0x0440 then "Exterior Venetian Blind (EVB)"
  else if combined = 0x0480 then "Louver Blind"
  else if combined = 0x04C0 then "Curtain Track"
  else if combined = 0x0500 then "Ventilation Point"
  else if combined = 0x0501 then "Air Inlet"
  else if combined = 0x0502 then "Air Transfer"
  else if combined = 0x0503 then "Air Outlet"
  else if combined = 0x0540 then "Exterior Heating"
  else if combined = 0x057A then "Exterior Heating: On/Off Only"
  else if combined = 0x0580 then "Heat Pump"
  else if combined = 0x05C0 then "Intrusion Alarm System"
  else if combined = 0x0600 then "Swinging Shutter"
  else if combined = 0x0601 then "Swinging Shutter with Independent Handling of Leaves"
  else if combined = 0x06C0 then "Sliding Window"
  else if combined = 0x0700 then "Zone Control Generator"
  else if combined = 0x0740 then "Bioclimatic Pergola"
  else if combined = 0x0780 then "Indoor Siren"
  else if combined = 0x0CC0 then "Domestic Hot Water"
  else if combined = 0x0D00 then "Electrical Heater"
  else if combined = 0x0D40 then "Heat Recovery Ventilation"
  else if combined = 0x3FC0 then "Central House Control"
  else if combined = 0xFC00 then "Test and Evaluation (RD)"
  else if combined = 0xFFC0 then "Remote Controller (RC)"
  else "Type " ++ toString nodeType ++ "." ++ toString nodeSubtype

/-- The JSON object written per device by `Device2W::toJson`.  Key and
general-info blobs are written conditionally and hence optional; hex strings
appear as their digit lists. -/
structure DeviceJson where
  description : String
  pairing_state : String
  last_seen : Nat
  node_type : Nat
  node_subtype : Nat
  node_type_name : String
  manufacturer : Nat
  manufacturer_name : String
  multi_info : Nat
  timestamp : Nat
  name : String
  actuator_turnaround_time : Nat
  sync_ctrl_grp : Bool
  rf_support : Bool
  io_membership : Bool
  power_save_mode : Nat
  system_key : Option (List Nat)
  session_key : Option (List Nat)
  stack_key : Option (List Nat)
  sequence : Nat
  general_info1 : Option (List Nat)
  general_info2 : Option (List Nat)
  deriving DecidableEq, Repr

/-- `Device2W::toJson`. -/
def toJsonD (d : Device) : DeviceJson :=
  { description := d.description,
    pairing_state := stateStr d.pairingState,
    last_seen := d.lastSeen,
    node_type := d.capabilities.nodeType,
    node_subtype := d.capabilities.nodeSubtype,
    node_type_name := getNodeTypeName d.capabilities.nodeType d.capabilities.nodeSubtype,
    manufacturer := d.capabilities.manufacturer,
    manufacturer_name := getManufacturerName d.capabilities.manufacturer,
    multi_info := d.capabilities.multiInfo,
    timestamp := d.capabilities.timestamp,
    name := d.capabilities.name,
    actuator_turnaround_time := d.capabilities.actuatorTurnaroundTime,
    sync_ctrl_grp := d.capabilities.syncCtrlGrp,
    rf_support := d.capabilities.rfSupport,
    io_membership := d.capabilities.ioMembership,
    power_save_mode := d.capabilities.powerSaveMode,
    system_key := if d.hasSystemKey then some (hexOfBytes d.systemKey) else none,
    session_key := if d.hasSessionKey then some (hexOfBytes d.sessionKey) else none,
    stack_key := if d.hasStackKey then some (hexOfBytes d.stackKey) else none,
    sequence := d.sequenceNumber,
    general_info1 :=
      if d.capabilities.hasGeneralInfo1 then some (hexOfBytes d.capabilities.generalInfo1) else none,
    general_info2 :=
      if d.capabilities.hasGeneralInfo2 then some (hexOfBytes d.capabilities.generalInfo2) else none }

/-- `Device2W::fromJson`: fill a default-constructed device from the JSON
object.  A key or info blob is taken only when present with the exact hex
length the parser checks for. -/
def fromJsonD (addr : Addr) (j : DeviceJson) : Device :=
  let d0 := mkDevice addr
  let sysK := match j.system_key with
    | some hx => if hx.length = 32 then some (bytesOfHex hx) else none
    | none => none
  let sesK := match j.session_key with
    | some hx => if hx.length = 32 then some (bytesOfHex hx) else none
    | none => none
  let stkK := match j.stack_key with
    | some hx => if hx.length = 32 then some (bytesOfHex hx) else none
    | none => none
  let gi1 := match j.general_info1 with
    | some hx => if hx.length = 28 then some (bytesOfHex hx) else none
    | none => none
  let gi2 := match j.general_info2 with
    | some hx => if hx.length = 32 then some (bytesOfHex hx) else none
    | none => none
  { d0 with
    description := j.description,
    pairingState := parseState j.pairing_state,
    lastSeen := j.last_seen,
    capabilities :=
      { nodeType := j.node_type,
        nodeSubtype := j.node_subtype,
        manufacturer := j.manufacturer,
        multiInfo := j.multi_info,
        timestamp := j.timestamp,
        name := j.name,
        actuatorTurnaroundTime := j.actuator_turnaround_time,
        syncCtrlGrp := j.sync_ctrl_grp,
        rfSupport := j.rf_support,
        ioMembership := j.io_membership,
        powerSaveMode := j.power_save_mode,
        generalInfo1 := gi1.getD d0.capabilities.generalInfo1,
        hasGeneralInfo1 := gi1.isSome,
        generalInfo2 := gi2.getD d0.capabilities.generalInfo2,
        hasGeneralInfo2 := gi2.isSome },
    systemKey := sysK.getD d0.systemKey,
    hasSystemKey := sysK.isSome,
    sessionKey := sesK.getD d0.sessionKey,
    hasSessionKey := sesK.isSome,
    stackKey := stkK.getD d0.stackKey,
    hasStackKey := stkK.isSome,
    sequenceNumber := j.sequence }

/-! ## Registry manager (Device2WManager) -/

/-- The in-memory device map (std::map keyed by the address hex string,
which is an injective image of the three address bytes). -/
abbrev Mgr := List (Addr × Device)

/-- `Device2WManager::getDevice`. -/
def findDev : Mgr → Addr → Option Device
  | [], _ => none
  | (a, d) :: rest, x => if a = x then some d else findDev rest x

/-- Point update of the device stored at an address (mutation through the
`Device2W*` pointer in the C code). -/
def updateDev : Mgr → Addr → (Device → Device) → Mgr
  | [], _, _ => []
  | (a, d) :: rest, x, f =>
    if a = x then (a, f d) :: rest else (a, d) :: updateDev rest x f

/-- `Device2WManager::addDevice`: return the existing device or append a
fresh one. -/
def addDev (m : Mgr) (a : Addr) : Mgr :=
  if (findDev m a).isSome then m else m ++ [(a, mkDevice a)]

/-- Insert-or-overwrite (`devices[addrKey] = device` on the std::map). -/
def insertDev (m : Mgr) (a : Addr) (d : Device) : Mgr :=
  if (findDev m a).isSome then updateDev m a (fun _ => d) else m ++ [(a, d)]

/-- `Device2WManager::removeDevice`. -/
def removeDev (m : Mgr) (a : Addr) : Mgr := m.filter (fun p => p.1 ≠ a)

/-! ## Controller, packets and global state -/

/-- The tagged retry operations the controller actually schedules
(`pendingRetryFunc` closures capture exactly these two sends). -/
inductive RetryOp where
  | askChallenge
  | keyTransfer
  deriving DecidableEq, Repr

/-- `class PairingController` state, including the function-local `static
uint8_t errorCount` of the `0xFE` handler branch. -/
structure Ctrl where
  currentPairingAddr : Addr
  pairingActive : Bool
  lastStepTime : Nat
  deviceChallenge : List Nat
  hasChallenge : Bool
  commandBeingAuthenticated : Nat
  systemKey2W : List Nat
  hasSystemKey : Bool
  autoPairMode : Bool
  cmd2ABroadcastCount : Nat
  pendingRetry : Option RetryOp
  retryCount : Nat
  lastRetryTime : Nat
  errorCount : Nat
  deriving DecidableEq, Repr

/-- The `PairingController` constructor state. -/
def initCtrl : Ctrl :=
  { currentPairingAddr := ⟨0, 0, 0⟩, pairingActive := false, lastStepTime := 0,
    deviceChallenge := List.replicate 6 0, hasChallenge := false,
    commandBeingAuthenticated := 0,
    systemKey2W := List.replicate 16 0, hasSystemKey := false,
    autoPairMode := false, cmd2ABroadcastCount := 0,
    pendingRetry := none, retryCount := 0, lastRetryTime := 0, errorCount := 0 }

/-- An on-air frame, reduced to the header fields and payload the reviewed
code reads and writes. -/
structure Packet where
  source : Addr
  target : Addr
  cmd : Nat
  payload : List Nat
  deriving DecidableEq, Repr

/-- `SimplePairingPacket::payload_len`: payload size clamped to 21. -/
def Packet.payloadLen (p : Packet) : Nat := min p.payload.length 21

/-- The global mutable state: the registry, its durable file mirror, and the
pairing controller. -/
structure GState where
  mgr : Mgr
  file : Option (List (Addr × DeviceJson))
  ctrl : Ctrl
  deriving DecidableEq

/-- The environment a step runs in: the tick time, the radio status and the
bytes the `random(0,256)` calls would produce. -/
structure Env where
  now : Nat
  radioPresent : Bool
  radioBusy : Bool
  rand : List Nat
  deriving DecidableEq, Repr

/-- The controller address `CONTROLLER_ADDRESS` (user configuration; the
value used in the source tree). -/
def controllerAddr : Addr := ⟨0xBA, 0x11, 0xAD⟩

/-- The 2W broadcast address `00:00:3B`. -/
def broadcastAddr : Addr := ⟨0x00, 0x00, 0x3B⟩

/-- `Device2WManager::saveToFile`: serialize every device into the durable
mirror. -/
def saveToFile (S : GState) : GState :=
  { S with file := some (S.mgr.map (fun p => (p.1, toJsonD p.2))) }

/-- `Device2WManager::loadFromFile`: parse each saved object and
insert-or-overwrite it in the map.  A missing file leaves the map alone. -/
def loadFromFile (S : GState) : GState :=
  match S.file with
  | none => S
  | some f =>
    let m := f.foldl (fun m p => insertDev m p.1 (fromJsonD p.1 p.2)) S.mgr
    { S with mgr := m }

/-- `Device2W::touch` composed into a field update. -/
def touchD (now : Nat) (d : Device) : Device := { d with lastSeen := now }

/-- `Device2WManager::startPairing`: create the device if needed and put it
in `DISCOVERING` with the pairing clock started. -/
def mgrStartPairing (S : GState) (a : Addr) (now : Nat) : GState :=
  let m := updateDev (addDev S.mgr a) a
    (fun d => touchD now { d with pairingState := DISCOVERING, pairingStartTime := now })
  { S with mgr := m }

/-- `Device2WManager::completePairing`: mark `PAIRED`, touch, save. -/
def mgrCompletePairing (S : GState) (a : Addr) (now : Nat) : GState :=
  match findDev S.mgr a with
  | none => S
  | some _ =>
    let m := updateDev S.mgr a (fun d => touchD now { d with pairingState := PAIRED })
    saveToFile { S with mgr := m }

/-- `Device2WManager::failPairing`: mark `PAIRING_FAILED` and touch. -/
def mgrFailPairing (S : GState) (a : Addr) (now : Nat) : GState :=
  match findDev S.mgr a with
  | none => S
  | some _ =>
    let m := updateDev S.mgr a (fun d => touchD now { d with pairingState := PAIRING_FAILED })
    { S with mgr := m }

/-- `Device2WManager::storeChallenge`: refuse short input, otherwise store
the first six bytes and raise the pending flag. -/
def mgrStoreChallenge (S : GState) (a : Addr) (chal : List Nat) (len now : Nat) : GState :=
  if len < 6 then S
  else match findDev S.mgr a with
    | none => S
    | some _ =>
      let m := updateDev S.mgr a (fun d => touchD now
        { d with lastChallenge := (List.range 6).map (chal.getD · 0),
                 hasPendingChallenge := true })
      { S with mgr := m }

/-- `Device2WManager::storeResponse`: store six bytes and clear the pending
flag. -/
def mgrStoreResponse (S : GState) (a : Addr) (resp : List Nat) (len now : Nat) : GState :=
  if len < 6 then S
  else match findDev S.mgr a with
    | none => S
    | some _ =>
      let m := updateDev S.mgr a (fun d => touchD now
        { d with lastResponse := (List.range 6).map (resp.getD · 0),
                 hasPendingChallenge := false })
      { S with mgr := m }

/-- `Device2WManager::storeSystemKey`: install the 16-byte key and save the
registry to the durable file. -/
def mgrStoreSystemKey (S : GState) (a : Addr) (key : List Nat) (len now : Nat) : GState :=
  if len < 16 then S
  else match findDev S.mgr a with
    | none => S
    | some _ =>
      let m := updateDev S.mgr a (fun d => touchD now
        { d with systemKey := (List.range 16).map (key.getD · 0), hasSystemKey := true })
      saveToFile { S with mgr := m }

/-- `Device2WManager::storeStackKey` (no save). -/
def mgrStoreStackKey (S : GState) (a : Addr) (key : List Nat) (len now : Nat) : GState :=
  if len < 16 then S
  else match findDev S.mgr a with
    | none => S
    | some _ =>
      let m := updateDev S.mgr a (fun d => touchD now
        { d with stackKey := (List.range 16).map (key.getD · 0), hasStackKey := true })
      { S with mgr := m }

/-- `Device2WManager::updateFromNameAnswer`. -/
def mgrUpdateName (S : GState) (a : Addr) (name : String) (now : Nat) : GState :=
  match findDev S.mgr a with
  | none => S
  | some _ =>
    let m := updateDev S.mgr a (fun d => touchD now
      { d with capabilities := { d.capabilities with name := name } })
    { S with mgr := m }

/-- `Device2WManager::updateFromGeneralInfo1`: refuse short input, copy 14
bytes and raise the flag. -/
def mgrUpdateGeneralInfo1 (S : GState) (a : Addr) (data : List Nat) (len now : Nat) : GState :=
  if len < 14 then S
  else match findDev S.mgr a with
    | none => S
    | some _ =>
      let m := updateDev S.mgr a (fun d => touchD now
        { d with capabilities := { d.capabilities with
            generalInfo1 := (List.range 14).map (data.getD · 0), hasGeneralInfo1 := true } })
      { S with mgr := m }

/-- `Device2WManager::updateFromGeneralInfo2`: refuse short input, copy 16
bytes and raise the flag. -/
def mgrUpdateGeneralInfo2 (S : GState) (a : Addr) (data : List Nat) (len now : Nat) : GState :=
  if len < 16 then S
  else match findDev S.mgr a with
    | none => S
    | some _ =>
      let m := updateDev S.mgr a (fun d => touchD now
        { d with capabilities := { d.capabilities with
            generalInfo2 := (List.range 16).map (data.getD · 0), hasGeneralInfo2 := true } })
      { S with mgr := m }

/-! ## Controller send helpers (PairingController) -/

/-- A send-step result: successor state, frames handed to the radio, and the
boolean the C function returns. -/
abbrev SendR := GState × List Packet × Bool

/-- `PairingController::sendPacket`: refuse when the radio is missing; when
it is busy transmitting, bump `lastStepTime` and refuse; otherwise hand the
frame to the radio. -/
def sendPacketC (S : GState) (env : Env) (p : Packet) : SendR :=
  if ¬ env.radioPresent then (S, [], false)
  else if env.radioBusy then
    ({ S with ctrl.lastStepTime := env.now }, [], false)
  else (S, [p], true)

/-- `PairingController::sendPairingBroadcast` — CMD `0x28`, broadcast. -/
def sendPairingBroadcast (S : GState) (env : Env) : SendR :=
  let r := sendPacketC S env ⟨controllerAddr, broadcastAddr, 0x28, []⟩
  if r.2.2 then ({ r.1 with ctrl.lastStepTime := env.now }, r.2.1, true) else r

/-- `PairingController::send2ABroadcast` — CMD `0x2A` with the fixed 12-byte
payload. -/
def send2ABroadcast (S : GState) (env : Env) : SendR :=
  let payload := [0x01, 0x38, 0x6E, 0x3C, 0x72, 0xC8, 0x2E, 0xF8, 0x48, 0x40, 0x77, 0x73]
  let r := sendPacketC S env ⟨controllerAddr, broadcastAddr, 0x2A, payload⟩
  if r.2.2 then ({ r.1 with ctrl.lastStepTime := env.now }, r.2.1, true) else r

/-- `PairingController::sendPriorityAddressRequest` — CMD `0x36`; on success
records that `0x36` is the command being authenticated. -/
def sendPriorityAddressRequest (S : GState) (env : Env) (target : Addr) : SendR :=
  let r := sendPacketC S env ⟨controllerAddr, target, 0x36, []⟩
  if r.2.2 then
    ({ r.1 with ctrl.commandBeingAuthenticated := 0x36, ctrl.lastStepTime := env.now },
     r.2.1, true)
  else r

/-- `PairingController::sendChallengeToPair` — CMD `0x3C` with six freshly
generated random bytes, marked as the current challenge before the send. -/
def sendChallengeToPair (S : GState) (env : Env) (target : Addr) : SendR :=
  let chal := (List.range 6).map (env.rand.getD · 0)
  let S0 := { S with ctrl.deviceChallenge := chal, ctrl.hasChallenge := true }
  let r := sendPacketC S0 env ⟨controllerAddr, target, 0x3C, chal⟩
  if r.2.2 then ({ r.1 with ctrl.lastStepTime := env.now }, r.2.1, true) else r

/-- `PairingController::sendAskChallenge` — CMD `0x31`, no payload. -/
def sendAskChallenge (S : GState) (env : Env) (target : Addr) : SendR :=
  let r := sendPacketC S env ⟨controllerAddr, target, 0x31, []⟩
  if r.2.2 then ({ r.1 with ctrl.lastStepTime := env.now }, r.2.1, true) else r

/-- `PairingController::sendChallengeResponse` — CMD `0x3D`.  With a system
key the six response bytes are the 2W MAC over the single byte
`commandBeingAuthenticated`; without one the stored challenge is echoed. -/
def sendChallengeResponse (S : GState) (env : Env) (target : Addr) : SendR :=
  if ¬ S.ctrl.hasChallenge then (S, [], false)
  else
    let response :=
      if S.ctrl.hasSystemKey then
        create2WHmac S.ctrl.deviceChallenge S.ctrl.systemKey2W [S.ctrl.commandBeingAuthenticated]
      else S.ctrl.deviceChallenge
    let r := sendPacketC S env ⟨controllerAddr, target, 0x3D, response⟩
    if r.2.2 then ({ r.1 with ctrl.lastStepTime := env.now }, r.2.1, true) else r

/-- `PairingController::sendKeyTransfer` — CMD `0x32`.  Substitutes an
all-zero challenge when none was received, wraps the controller system key
with the IV built from the previous frame byte `0x31` and the challenge,
stores the system and stack keys in the device, and sends the wrapped key.
(`constructInitialValue` of the crypto library is outside the reviewed
sources; per the spec it is the same IV construction as in the key-wrap.) -/
def sendKeyTransfer (S : GState) (env : Env) (target : Addr) : SendR :=
  let S0 :=
    if ¬ S.ctrl.hasChallenge then
      { S with ctrl.deviceChallenge := List.replicate 6 0, ctrl.hasChallenge := true }
    else S
  let frame : List Nat := [0x31]
  let iv := constructIVsrc frame S0.ctrl.deviceChallenge
  let encryptedIv := aesEncryptBlock transfertKey iv
  let keyData := (List.range 16).map fun i =>
    S0.ctrl.systemKey2W.getD i 0 ^^^ encryptedIv.getD i 0
  let S1 := mgrStoreSystemKey S0 target S0.ctrl.systemKey2W 16 env.now
  let S2 := mgrStoreStackKey S1 target encryptedIv 16 env.now
  let r := sendPacketC S2 env ⟨controllerAddr, target, 0x32, keyData⟩
  if r.2.2 then
    let m := updateDev r.1.mgr target (fun d => { d with pairingState := KEY_EXCHANGED })
    ({ r.1 with mgr := m, ctrl.commandBeingAuthenticated := 0x32, ctrl.lastStepTime := env.now },
     r.2.1, true)
  else r

/-- `PairingController::requestName` — CMD `0x50`. -/
def requestName (S : GState) (env : Env) (target : Addr) : SendR :=
  sendPacketC S env ⟨controllerAddr, target, 0x50, []⟩

/-- `PairingController::requestGeneralInfo1` — CMD `0x54`. -/
def requestGeneralInfo1 (S : GState) (env : Env) (target : Addr) : SendR :=
  sendPacketC S env ⟨controllerAddr, target, 0x54, []⟩

/-- `PairingController::requestGeneralInfo2` — CMD `0x56`. -/
def requestGeneralInfo2 (S : GState) (env : Env) (target : Addr) : SendR :=
  sendPacketC S env ⟨controllerAddr, target, 0x56, []⟩

/-! ## Controller operations -/

/-- `PairingController::setSystemKey`. -/
def setSystemKeyC (S : GState) (key : List Nat) : GState :=
  { S with ctrl.systemKey2W := (List.range 16).map (key.getD · 0), ctrl.hasSystemKey := true }

/-- `PairingController::startPairing`: refuse while a session is active or
without a configured system key; otherwise record the target address, start
the device in the manager and activate the session. -/
def startPairingC (S : GState) (a : Addr) (env : Env) : GState × Bool :=
  if S.ctrl.pairingActive then (S, false)
  else if ¬ S.ctrl.hasSystemKey then (S, false)
  else
    let S1 := { S with ctrl.currentPairingAddr := a }
    let S2 := mgrStartPairing S1 a env.now
    match findDev S2.mgr a with
    | none => ({ S2 with ctrl.currentPairingAddr := ⟨0, 0, 0⟩ }, false)
    | some _ =>
      ({ S2 with ctrl.pairingActive := true, ctrl.lastStepTime := env.now - 1000 }, true)

/-- `PairingController::cancelPairing`: revert the current device to
`UNPAIRED`, deactivate and clear the target address. -/
def cancelPairingC (S : GState) : GState :=
  if ¬ S.ctrl.pairingActive then S
  else
    let m := match findDev S.mgr S.ctrl.currentPairingAddr with
      | none => S.mgr
      | some _ => updateDev S.mgr S.ctrl.currentPairingAddr
          (fun d => { d with pairingState := UNPAIRED })
    { S with mgr := m, ctrl.pairingActive := false, ctrl.currentPairingAddr := ⟨0, 0, 0⟩ }

/-- `PairingController::scheduleRetry` with the tagged retry value. -/
def scheduleRetryC (S : GState) (env : Env) (op : RetryOp) : GState :=
  { S with ctrl.pendingRetry := some op, ctrl.retryCount := 0, ctrl.lastRetryTime := env.now }

/-- `PairingController::clearRetry`. -/
def clearRetryC (S : GState) : GState :=
  { S with ctrl.pendingRetry := none, ctrl.retryCount := 0 }

/-- Dispatch of the stored retry closure: the two operations the code ever
schedules, both targeting the current pairing device. -/
def runRetryOp (S : GState) (env : Env) : RetryOp → SendR
  | RetryOp.askChallenge => sendAskChallenge S env S.ctrl.currentPairingAddr
  | RetryOp.keyTransfer => sendKeyTransfer S env S.ctrl.currentPairingAddr

/-- `PairingController::processRetry`. -/
def processRetryC (S : GState) (env : Env) : GState × List Packet :=
  match S.ctrl.pendingRetry with
  | none => (S, [])
  | some op =>
    if env.now - S.ctrl.lastRetryTime < 100 then (S, [])
    else
      let r := runRetryOp S env op
      if r.2.2 then (clearRetryC r.1, r.2.1)
      else
        let rc := S.ctrl.retryCount + 1
        let S1 := { r.1 with ctrl.retryCount := rc, ctrl.lastRetryTime := env.now }
        if rc ≥ 5 then (clearRetryC S1, r.2.1) else (S1, r.2.1)

/-- The `0xFE` (error status) branch of `handlePairingPacket`, with the
function-local `static uint8_t errorCount`: on status `0x08` the counter is
incremented and the session is cancelled only once the count exceeds six; on
status `0x76` the session is cancelled immediately. -/
def handleErrorStatus (S : GState) (status : Nat) : GState :=
  if status = 0x08 then
    let ec := S.ctrl.errorCount + 1
    if ec > 6 then { cancelPairingC { S with ctrl.errorCount := ec } with ctrl.errorCount := 0 }
    else { S with ctrl.errorCount := ec }
  else if status = 0x76 then cancelPairingC S
  else S

/-- The final commands of the dispatch (`0x3D` onward). -/
def hppDispatchTail2 (S : GState) (env : Env) (pkt : Packet) (device : Device) :
    GState × List Packet × Bool :=
  let cur := S.ctrl.currentPairingAddr
  let plen := pkt.payloadLen
  let pay := fun i => pkt.payload.getD i 0
  if pkt.cmd = 0x3D then
    if plen ≥ 6 ∧ device.pairingState = CHALLENGE_SENT then
      let m := updateDev S.mgr cur (fun d => { d with pairingState := KEY_EXCHANGED })
      ({ S with mgr := m, ctrl.lastStepTime := env.now }, [], true)
    else (S, [], false)
  else if pkt.cmd = 0x33 then
    let r := sendPriorityAddressRequest S env cur
    let S1 :=
      if r.1.ctrl.hasSystemKey then
        let m := updateDev r.1.mgr cur (fun d =>
          { d with systemKey := r.1.ctrl.systemKey2W, hasSystemKey := true })
        { r.1 with mgr := m }
      else r.1
    let S2 := mgrCompletePairing S1 cur env.now
    let S3 := { S2 with ctrl.pairingActive := false }
    let m3 := updateDev S3.mgr cur (fun d => { d with pairingState := PAIRED })
    ({ S3 with mgr := m3 }, r.2.1, true)
  else if pkt.cmd = 0x51 then
    if plen ≥ 16 then
      let nameBytes := (((List.range 16).map pay).takeWhile (· ≠ 0)).map Char.ofNat
      let S1 := mgrUpdateName S cur (String.mk nameBytes) env.now
      let r := requestGeneralInfo1 S1 env cur
      (r.1, r.2.1, true)
    else (S, [], false)
  else if pkt.cmd = 0x55 then
    if plen ≥ 14 then
      let S1 := mgrUpdateGeneralInfo1 S cur pkt.payload plen env.now
      let r := requestGeneralInfo2 S1 env cur
      (r.1, r.2.1, true)
    else (S, [], false)
  else if pkt.cmd = 0x57 then
    if plen ≥ 16 then
      let S1 := mgrUpdateGeneralInfo2 S cur pkt.payload plen env.now
      let S2 :=
        if S1.ctrl.hasSystemKey then
          let m := updateDev S1.mgr cur (fun d =>
            { d with systemKey := S1.ctrl.systemKey2W, hasSystemKey := true })
          { S1 with mgr := m }
        else S1
      let S3 := mgrCompletePairing S2 cur env.now
      ({ S3 with ctrl.pairingActive := false }, [], true)
    else (S, [], false)
  else (S, [], true)

/-- The tail of the `handlePairingPacket` command dispatch (commands `0x32`
onward), split out to keep each piece tractable. -/
def hppDispatchTail (S : GState) (env : Env) (pkt : Packet) (device : Device) :
    GState × List Packet × Bool :=
  let cur := S.ctrl.currentPairingAddr
  let plen := pkt.payloadLen
  let pay := fun i => pkt.payload.getD i 0
  if pkt.cmd = 0x32 then
    if plen ≥ 16 then
      let m := updateDev S.mgr cur (fun d => { d with pairingState := KEY_EXCHANGED })
      ({ S with mgr := m, ctrl.lastStepTime := env.now }, [], true)
    else (S, [], false)
  else if pkt.cmd = 0x3C then
    if device.pairingState = ASKING_CHALLENGE then
      if plen ≥ 6 then
        let chal := (List.range 6).map pay
        let S1 := { S with ctrl.deviceChallenge := chal, ctrl.hasChallenge := true }
        let r := sendKeyTransfer S1 env cur
        if r.2.2 then
          let m := updateDev r.1.mgr cur
            (fun d => { d with pairingState := CHALLENGE_RECEIVED })
          ({ r.1 with mgr := m, ctrl.lastStepTime := env.now }, r.2.1, true)
        else (scheduleRetryC r.1 env RetryOp.keyTransfer, r.2.1, true)
      else (S, [], false)
    else if device.pairingState = CHALLENGE_RECEIVED ∨
            device.pairingState = KEY_EXCHANGED then
      if plen ≥ 6 then
        let chal := (List.range 6).map pay
        let S1 := { S with ctrl.deviceChallenge := chal, ctrl.hasChallenge := true }
        let r := sendChallengeResponse S1 env cur
        if r.2.2 then ({ r.1 with ctrl.lastStepTime := env.now }, r.2.1, true)
        else (r.1, r.2.1, true)
      else (S, [], false)
    else (S, [], false)
  else hppDispatchTail2 S env pkt device

/-- The per-command dispatch of `handlePairingPacket` once the frame has
passed the session and source filters and the current device is present. -/
def hppDispatch (S : GState) (env : Env) (pkt : Packet) (device : Device) :
    GState × List Packet × Bool :=
  let cur := S.ctrl.currentPairingAddr
  let plen := pkt.payloadLen
  let pay := fun i => pkt.payload.getD i 0
  if pkt.cmd = 0x29 then
    if device.pairingState = DISCOVERING then
      let m := updateDev S.mgr cur (fun d => { d with pairingState := ASKING_CHALLENGE })
      let S1 := { S with mgr := m }
      let r := sendAskChallenge S1 env cur
      if r.2.2 then
        (clearRetryC { r.1 with ctrl.lastStepTime := env.now }, r.2.1, true)
      else (scheduleRetryC r.1 env RetryOp.askChallenge, r.2.1, true)
    else (S, [], false)
  else if pkt.cmd = 0x2D then
    if device.pairingState = ALIVE_CHECK then
      let m := updateDev S.mgr cur (fun d => { d with pairingState := BROADCASTING_2A })
      ({ S with mgr := m, ctrl.cmd2ABroadcastCount := 0, ctrl.lastStepTime := env.now },
       [], true)
    else (S, [], false)
  else if pkt.cmd = 0x37 then
    if (device.pairingState = WAITING_BEFORE_LEARNING ∨
        device.pairingState = LEARNING_MODE) ∧ plen ≥ 3 then
      let r := sendChallengeToPair S env cur
      if r.2.2 then
        let m := updateDev r.1.mgr cur (fun d => { d with pairingState := CHALLENGE_SENT })
        ({ r.1 with mgr := m, ctrl.lastStepTime := env.now }, r.2.1, true)
      else (cancelPairingC r.1, r.2.1, true)
    else (S, [], false)
  else if pkt.cmd = 0xFE then
    let status := if plen > 0 then pay 0 else 0
    (handleErrorStatus S status, [], true)
  else if pkt.cmd = 0x2F then
    if plen ≥ 1 then
      if pay 0 = 0x02 then
        let m := updateDev S.mgr cur (fun d => { d with pairingState := KEY_EXCHANGED })
        ({ S with mgr := m, ctrl.lastStepTime := env.now }, [], true)
      else (cancelPairingC S, [], true)
    else (S, [], false)
  else hppDispatchTail S env pkt device

/-- `PairingController::handlePairingPacket`: auto-pair promotion, source
filtering, and the per-command switch. -/
def handlePairingPacket (S : GState) (env : Env) (pkt : Packet) : GState × List Packet × Bool :=
  let auto :=
    if S.ctrl.autoPairMode ∧ ¬ S.ctrl.pairingActive ∧ pkt.cmd = 0x29 then
      let S0 := { S with ctrl.autoPairMode := false }
      let r := startPairingC S0 pkt.source env
      (r.1, r.2)
    else (S, true)
  match auto with
  | (Sf, false) => (Sf, [], false)
  | (S, true) =>
    if ¬ S.ctrl.pairingActive then (S, [], false)
    else if pkt.source ≠ S.ctrl.currentPairingAddr then (S, [], false)
    else
      match findDev S.mgr S.ctrl.currentPairingAddr with
      | none => (S, [], false)
      | some device =>
        hppDispatch S env pkt device

/-- `PairingController::process`: retry handling, timeout check and the
per-state auto-progress switch. -/
def processC (S : GState) (env : Env) : GState × List Packet :=
  if ¬ S.ctrl.pairingActive then (S, [])
  else
    let pr := processRetryC S env
    let S := pr.1
    match findDev S.mgr S.ctrl.currentPairingAddr with
    | none => (cancelPairingC S, pr.2)
    | some device =>
      let cur := S.ctrl.currentPairingAddr
      if device.hasPairingTimedOut env.now then
        let S1 := mgrFailPairing S cur env.now
        ({ S1 with ctrl.pairingActive := false }, pr.2)
      else
        let dt := env.now - S.ctrl.lastStepTime
        match device.pairingState with
        | DISCOVERING =>
          if dt > 500 then
            let r := sendPairingBroadcast S env
            if r.2.2 then ({ r.1 with ctrl.lastStepTime := env.now }, pr.2 ++ r.2.1)
            else (r.1, pr.2 ++ r.2.1)
          else (S, pr.2)
        | ALIVE_CHECK =>
          if dt > 5000 then ({ S with ctrl.lastStepTime := env.now }, pr.2) else (S, pr.2)
        | BROADCASTING_2A =>
          if dt > 200 then
            if S.ctrl.cmd2ABroadcastCount < 4 then
              let r := send2ABroadcast S env
              if r.2.2 then
                ({ r.1 with ctrl.cmd2ABroadcastCount := S.ctrl.cmd2ABroadcastCount + 1,
                            ctrl.lastStepTime := env.now }, pr.2 ++ r.2.1)
              else (r.1, pr.2 ++ r.2.1)
            else
              let m := updateDev S.mgr cur
                (fun d => { d with pairingState := WAITING_BEFORE_LEARNING })
              ({ S with mgr := m, ctrl.lastStepTime := env.now }, pr.2)
          else (S, pr.2)
        | WAITING_BEFORE_LEARNING =>
          if dt > 100 then
            let r := sendPriorityAddressRequest S env cur
            if r.2.2 then
              let m := updateDev r.1.mgr cur (fun d => { d with pairingState := LEARNING_MODE })
              ({ r.1 with mgr := m, ctrl.lastStepTime := env.now }, pr.2 ++ r.2.1)
            else (cancelPairingC r.1, pr.2 ++ r.2.1)
          else (S, pr.2)
        | LEARNING_MODE =>
          if dt > 5000 then ({ S with ctrl.lastStepTime := env.now }, pr.2) else (S, pr.2)
        | CHALLENGE_SENT =>
          if dt > 5000 then ({ S with ctrl.lastStepTime := env.now }, pr.2) else (S, pr.2)
        | CHALLENGE_RECEIVED =>
          if dt > 5000 then ({ S with ctrl.lastStepTime := env.now }, pr.2) else (S, pr.2)
        | PAIRING_CONFIRMED =>
          if dt > 5000 then (cancelPairingC S, pr.2) else (S, pr.2)
        | KEY_EXCHANGED =>
          if dt > 500 then
            let r := requestName S env cur
            let m := updateDev r.1.mgr cur (fun d => { d with pairingState := PAIRED })
            ({ r.1 with mgr := m, ctrl.lastStepTime := env.now }, pr.2 ++ r.2.1)
          else (S, pr.2)
        | _ => (S, pr.2)

/-! ## Response handler (IOHC2WResponseHandler) -/

/-- The raw receive buffer of a packet: two control bytes, source, target,
command, payload.  `buffer[8]` is the command byte. -/
def Packet.buffer (p : Packet) : List Nat :=
  [0, 0, p.source.b0, p.source.b1, p.source.b2,
   p.target.b0, p.target.b1, p.target.b2, p.cmd] ++ p.payload

/-- `IOHC2WResponseHandler::handleChallenge`: for a paired source, store the
received challenge, and when a command was recorded answer with CMD `0x3D`
carrying the 2W MAC computed over the single frame byte `0x3D`.  The length
test in the source reads `payload.buffer[8]`, which is the command byte. -/
def handleChallenge2W (S : GState) (env : Env) (pkt : Packet) : GState × List Packet × Bool :=
  match findDev S.mgr pkt.source with
  | none => (S, [], false)
  | some device =>
    if device.pairingState ≠ PAIRED then (S, [], false)
    else
      if pkt.buffer.getD 8 0 ≥ 6 then
        let S1 := mgrStoreChallenge S pkt.source ((List.range 6).map (pkt.payload.getD · 0))
          6 env.now
        if ¬ env.radioPresent then (S1, [], true)
        else
          match findDev S1.mgr pkt.source with
          | none => (S1, [], true)
          | some device1 =>
            if device1.lastCommandLen > 0 then
              let mac := create2WHmac device1.lastChallenge device1.systemKey [0x3D]
              (S1, [⟨controllerAddr, device1.nodeAddress, 0x3D, mac⟩], true)
            else (S1, [], true)
      else (S, [], true)

/-- `IOHC2WResponseHandler::handleConfirmation`: accepted only from paired
sources; no registry mutation. -/
def handleConfirmation2W (S : GState) (pkt : Packet) : GState × Bool :=
  match findDev S.mgr pkt.source with
  | none => (S, false)
  | some device => (S, device.pairingState = PAIRED)

/-! ## Operator commands (iohc2WCommands.cpp) -/

/-- `on2W` / `off2W`: for a paired device, send CMD `0x00` with the six-byte
plug payload and record the command bytes for the later MAC.  `mainParam` is
`0x00` for ON and `0xc8` for OFF. -/
def cmdOnOff (S : GState) (a : Addr) (mainParam : Nat) : GState × List Packet :=
  match findDev S.mgr a with
  | none => (S, [])
  | some device =>
    if device.pairingState ≠ PAIRED then (S, [])
    else
      let m := updateDev S.mgr a (fun d =>
        let lc := [0x00, 0x01, 0xe7, mainParam, 0x00, 0x00, 0x00] ++ d.lastCommand.drop 7
        { d with lastCommand := lc, lastCommandLen := 7 })
      ({ S with mgr := m },
       [⟨controllerAddr, device.nodeAddress, 0x00, [0x01, 0xe7, mainParam, 0x00, 0x00, 0x00]⟩])

/-- `auth2W`: answer a pending challenge with the MAC over the stored
original command bytes, then clear the pending flag. -/
def cmdAuth (S : GState) (a : Addr) : GState × List Packet :=
  match findDev S.mgr a with
  | none => (S, [])
  | some device =>
    if ¬ device.hasPendingChallenge then (S, [])
    else if ¬ device.hasSystemKey then (S, [])
    else if device.lastCommandLen = 0 then (S, [])
    else
      let frameData := (List.range device.lastCommandLen).map (device.lastCommand.getD · 0)
      let mac := create2WHmac device.lastChallenge device.systemKey frameData
      let m := updateDev S.mgr a (fun d => { d with hasPendingChallenge := false })
      ({ S with mgr := m }, [⟨controllerAddr, device.nodeAddress, 0x3D, mac⟩])

/-- `del2W`: remove the device and save. -/
def cmdDel (S : GState) (a : Addr) : GState :=
  match findDev S.mgr a with
  | none => S
  | some _ => saveToFile { S with mgr := removeDev S.mgr a }

/-- `reload2W`: clear the in-memory map and re-read the durable file. -/
def cmdReload (S : GState) : GState := loadFromFile { S with mgr := [] }

/-- A process restart: the singletons are rebuilt from their constructors
and the registry is loaded from the durable file. -/
def reboot (S : GState) : GState :=
  loadFromFile { mgr := [], file := S.file, ctrl := initCtrl }

/-! ## Operations and reachability -/

/-- The operations that drive the core: controller calls, the periodic tick,
received frames routed to the pairing machine or the response handler, and
the operator commands that reach the registry. -/
inductive Op where
  | setKey (k : List Nat)
  | startPair (a : Addr) (env : Env)
  | cancelPair
  | enableAutoPair
  | disableAutoPair
  | tick (env : Env)
  | rxPairing (env : Env) (pkt : Packet)
  | rxChallenge (env : Env) (pkt : Packet)
  | rxConfirm (pkt : Packet)
  | deviceOn (a : Addr)
  | deviceOff (a : Addr)
  | auth (a : Addr)
  | save
  | del (a : Addr)
  | reload
  | restart
  deriving DecidableEq

/-- The state successor of one operation. -/
def applyOp (S : GState) : Op → GState
  | Op.setKey k => setSystemKeyC S k
  | Op.startPair a env => (startPairingC S a env).1
  | Op.cancelPair => cancelPairingC S
  | Op.enableAutoPair => { S with ctrl.autoPairMode := true }
  | Op.disableAutoPair => { S with ctrl.autoPairMode := false }
  | Op.tick env => (processC S env).1
  | Op.rxPairing env pkt => (handlePairingPacket S env pkt).1
  | Op.rxChallenge env pkt => (handleChallenge2W S env pkt).1
  | Op.rxConfirm pkt => (handleConfirmation2W S pkt).1
  | Op.deviceOn a => (cmdOnOff S a 0x00).1
  | Op.deviceOff a => (cmdOnOff S a 0xc8).1
  | Op.auth a => (cmdAuth S a).1
  | Op.save => saveToFile S
  | Op.del a => cmdDel S a
  | Op.reload => cmdReload S
  | Op.restart => reboot S

/-- Apply a sequence of operations. -/
def applyOps (S : GState) (ops : List Op) : GState := ops.foldl applyOp S

/-- Whether an operation reads the durable file back into the registry. -/
def Op.loadsFile : Op → Bool
  | Op.reload => true
  | Op.restart => true
  | _ => false

/-- One step of the full system. -/
def StepAll (S S' : GState) : Prop := ∃ op : Op, S' = applyOp S op

/-- One step of a single run that never loads the durable file back. -/
def StepNL (S S' : GState) : Prop :=
  ∃ op : Op, op.loadsFile = false ∧ S' = applyOp S op

/-- The boot state: empty registry, no durable file, freshly constructed
controller. -/
def initG : GState := { mgr := [], file := none, ctrl := initCtrl }

/-- The number of registry devices outside the terminal set
`{UNPAIRED, PAIRED, PAIRING_FAILED}`. -/
def countNonTerminal (S : GState) : Nat :=
  (S.mgr.filter (fun p => p.2.pairingState.isTerminal = false)).length

/-- The serial-pairing invariant used in the preservation proof: registry
keys are unique, and every non-terminal device is the device of the active
pairing session. -/
def SerialInv (S : GState) : Prop :=
  (S.mgr.map Prod.fst).Nodup ∧
  ∀ a d, findDev S.mgr a = some d → d.pairingState.isTerminal = false →
    S.ctrl.pairingActive = true ∧ a = S.ctrl.currentPairingAddr

/-! ## Well-formedness for the persistence round-trip -/

/-- The pairing-state strings `Device2W::fromJson` knows how to parse back. -/
def stateParseable : PairingState → Bool
  | UNPAIRED => true
  | DISCOVERING => true
  | ALIVE_CHECK => true
  | LEARNING_MODE => true
  | CHALLENGE_RECEIVED => true
  | PAIRING_CONFIRMED => true
  | KEY_EXCHANGED => true
  | PAIRED => true
  | PAIRING_FAILED => true
  | _ => false

/-- Well-formed device fields: byte arrays have their C sizes with byte
values, and absent keys / info blocks hold the constructor zeros. -/
def WFDevice (d : Device) : Prop :=
  d.systemKey.length = 16 ∧ (∀ b ∈ d.systemKey, b < 256) ∧
  d.sessionKey.length = 16 ∧ (∀ b ∈ d.sessionKey, b < 256) ∧
  d.stackKey.length = 16 ∧ (∀ b ∈ d.stackKey, b < 256) ∧
  d.capabilities.generalInfo1.length = 14 ∧ (∀ b ∈ d.capabilities.generalInfo1, b < 256) ∧
  d.capabilities.generalInfo2.length = 16 ∧ (∀ b ∈ d.capabilities.generalInfo2, b < 256) ∧
  (d.hasSystemKey = false → d.systemKey = List.replicate 16 0) ∧
  (d.hasSessionKey = false → d.sessionKey = List.replicate 16 0) ∧
  (d.hasStackKey = false → d.stackKey = List.replicate 16 0) ∧
  (d.capabilities.hasGeneralInfo1 = false → d.capabilities.generalInfo1 = List.replicate 14 0) ∧
  (d.capabilities.hasGeneralInfo2 = false → d.capabilities.generalInfo2 = List.replicate 16 0)

instance (d : Device) : Decidable (WFDevice d) := by unfold WFDevice; infer_instance

/-! # Theorems -/

/-! ## List helpers -/

theorem getD_set_self {l : List Nat} {i a : Nat} (h : i < l.length) :
    (l.set i a).getD i 0 = a := by
  simp [List.getD_eq_getElem?_getD, List.getElem?_set_self h]

theorem getD_set_ne {l : List Nat} {i j a : Nat} (h : i ≠ j) :
    (l.set i a).getD j 0 = l.getD j 0 := by
  simp [List.getD_eq_getElem?_getD, List.getElem?_set_ne h]

theorem getD_map_range {f : Nat → Nat} {n i : Nat} (h : i < n) :
    ((List.range n).map f).getD i 0 = f i := by
  simp [List.getD_eq_getElem?_getD, List.getElem?_map, List.getElem?_range h]

theorem map_getD_range (K : List Nat) :
    (List.range K.length).map (fun i => K.getD i 0) = K := by
  induction K with
  | nil => rfl
  | cons a K ih =>
    have : List.range (a :: K).length = 0 :: (List.range K.length).map Nat.succ := by
      simpa using List.range_succ_eq_map K.length
    rw [this]
    simp only [List.map_cons, List.map_map]
    refine congrArg (a :: ·) ?_
    have hf : ((fun i => (a :: K).getD i 0) ∘ Nat.succ) = fun i => K.getD i 0 := by
      funext i
      simp [List.getD_cons_succ]
    rw [hf]
    exact ih

/-! ## C1 — key-wrap round trip -/

/-- C1: for every 16-byte key `K`, 6-byte challenge `C` and byte sequence
`F`, unwrapping the wrapped key recovers `K`: the wrap XORs `K` with the
AES-encrypted IV built from `(F, C)`, and the unwrap XORs the transported
value with the same mask. -/
theorem c1_keywrap_roundtrip (K C F : List Nat) (hK : K.length = 16) (_hC : C.length = 6) :
    unwrap2WKey C F (encrypt2WKey C F K) = K := by
  unfold unwrap2WKey encrypt2WKey
  conv_rhs => rw [← map_getD_range K, hK]
  refine List.map_congr_left ?_
  intro i hi
  have hi16 : i < 16 := List.mem_range.mp hi
  rw [getD_map_range hi16]
  generalize (aesEncryptBlock transfertKey (constructIVsrc F C)).getD i 0 = e
  generalize K.getD i 0 = k
  rw [Nat.xor_comm e k, Nat.xor_assoc, Nat.xor_self, Nat.xor_zero]

theorem c1_keywrap_roundtrip_witness :
    (List.replicate 16 7 : List Nat).length = 16 ∧ ([1, 2, 3, 4, 5, 6] : List Nat).length = 6 ∧
    unwrap2WKey [1, 2, 3, 4, 5, 6] [0x31]
      (encrypt2WKey [1, 2, 3, 4, 5, 6] [0x31] (List.replicate 16 7)) = List.replicate 16 7 :=
  ⟨by decide, by decide,
   c1_keywrap_roundtrip (List.replicate 16 7) [1, 2, 3, 4, 5, 6] [0x31] (by decide) (by decide)⟩

/-! ## C3 — IV construction -/

theorem ivEncryptLoop_length (frame : List Nat) :
    ∀ i iv, (ivEncryptLoop frame i iv).length = iv.length := by
  induction frame with
  | nil => intro i iv; rfl
  | cons b rest ih =>
    intro i iv
    simp only [ivEncryptLoop]
    split
    · rw [ih]
      simp [List.length_set]
    · rw [ih]
      simp [List.length_set]

theorem ivEncryptLoop_getD_high (frame : List Nat) :
    ∀ i iv j, 10 ≤ j → (ivEncryptLoop frame i iv).getD j 0 = iv.getD j 0 := by
  induction frame with
  | nil => intro i iv j _; rfl
  | cons b rest ih =>
    intro i iv j hj
    simp only [ivEncryptLoop]
    by_cases hij : i < 8
    · rw [if_pos hij, ih _ _ _ hj, getD_set_ne (by omega), getD_set_ne (by omega),
        getD_set_ne (by omega)]
    · rw [if_neg hij, ih _ _ _ hj, getD_set_ne (by omega), getD_set_ne (by omega)]

theorem ivEncryptLoop_getD_chk (frame : List Nat) :
    ∀ i iv, iv.length = 16 →
      ((ivEncryptLoop frame i iv).getD 8 0, (ivEncryptLoop frame i iv).getD 9 0)
        = frame.foldl (fun p b => computeChecksum b p.1 p.2) (iv.getD 8 0, iv.getD 9 0) := by
  induction frame with
  | nil => intro i iv _; rfl
  | cons b rest ih =>
    intro i iv hlen
    simp only [ivEncryptLoop, List.foldl_cons]
    set c := computeChecksum b (iv.getD 8 0) (iv.getD 9 0) with hc
    have hset9 : ((iv.set 8 c.1).set 9 c.2).length = 16 := by
      simp [List.length_set, hlen]
    by_cases hij : i < 8
    · rw [if_pos hij, ih _ _ (by simp [List.length_set, hlen])]
      have hA : ((((iv.set 8 c.1).set 9 c.2).set i b).getD 8 0) = c.1 := by
        rw [getD_set_ne (by omega), getD_set_ne (by omega : (9 : Nat) ≠ 8)]
        exact getD_set_self (by omega)
      have hB : ((((iv.set 8 c.1).set 9 c.2).set i b).getD 9 0) = c.2 := by
        rw [getD_set_ne (by omega)]
        exact getD_set_self (by simp [List.length_set]; omega)
      rw [hA, hB]
    · rw [if_neg hij, ih _ _ hset9]
      have hA : (((iv.set 8 c.1).set 9 c.2).getD 8 0) = c.1 := by
        rw [getD_set_ne (by omega : (9 : Nat) ≠ 8)]
        exact getD_set_self (by omega)
      have hB : (((iv.set 8 c.1).set 9 c.2).getD 9 0) = c.2 :=
        getD_set_self (by simp [List.length_set]; omega)
      rw [hA, hB]

theorem ivEncryptLoop_getD_low (frame : List Nat) :
    ∀ i iv j, j < 8 → iv.length = 16 →
      (ivEncryptLoop frame i iv).getD j 0 =
        if i ≤ j ∧ j - i < frame.length then frame.getD (j - i) 0 else iv.getD j 0 := by
  induction frame with
  | nil =>
    intro i iv j hj _
    simp [ivEncryptLoop]
  | cons b rest ih =>
    intro i iv j hj hlen
    simp only [ivEncryptLoop]
    by_cases hij : i < 8
    · rw [if_pos hij]
      have hlen2 : (((iv.set 8 (computeChecksum b (iv.getD 8 0) (iv.getD 9 0)).1).set 9
          (computeChecksum b (iv.getD 8 0) (iv.getD 9 0)).2).set i b).length = 16 := by
        simp [List.length_set, hlen]
      rw [ih _ _ _ hj hlen2]
      rcases Nat.lt_trichotomy j i with hlt | heq | hgt
      · rw [if_neg (by omega), if_neg (by omega)]
        rw [getD_set_ne (by omega), getD_set_ne (by omega), getD_set_ne (by omega)]
      · subst heq
        rw [if_neg (by omega), if_pos ⟨le_refl j, by simp⟩]
        rw [Nat.sub_self]
        rw [getD_set_self (by simp [List.length_set]; omega)]
        rfl
      · by_cases hcond : j - (i + 1) < rest.length
        · rw [if_pos ⟨by omega, hcond⟩, if_pos ⟨by omega, by simp; omega⟩]
          have : j - i = (j - (i + 1)) + 1 := by omega
          rw [this, List.getD_cons_succ]
        · rw [if_neg (by omega), if_neg (by simp; omega)]
          rw [getD_set_ne (by omega), getD_set_ne (by omega), getD_set_ne (by omega)]
    · rw [if_neg hij]
      have hlen2 : ((iv.set 8 (computeChecksum b (iv.getD 8 0) (iv.getD 9 0)).1).set 9
          (computeChecksum b (iv.getD 8 0) (iv.getD 9 0)).2).length = 16 := by
        simp [List.length_set, hlen]
      rw [ih _ _ _ hj hlen2]
      rw [if_neg (by omega), if_neg (by omega)]
      rw [getD_set_ne (by omega), getD_set_ne (by omega)]

theorem ivPad55_spec : ∀ k j iv, 8 - j = k → iv.length = 16 →
    (ivPad55 iv j).length = 16 ∧
    ∀ m, (ivPad55 iv j).getD m 0 = if j ≤ m ∧ m < 8 then 0x55 else iv.getD m 0 := by
  intro k
  induction k with
  | zero =>
    intro j iv hk hlen
    rw [ivPad55, if_neg (by omega)]
    refine ⟨hlen, fun m => ?_⟩
    rw [if_neg (by omega)]
  | succ k ih =>
    intro j iv hk hlen
    rw [ivPad55, if_pos (by omega)]
    obtain ⟨ihlen, ihget⟩ := ih (j + 1) (iv.set j 0x55) (by omega) (by simp [List.length_set, hlen])
    refine ⟨ihlen, fun m => ?_⟩
    rw [ihget m]
    rcases Nat.lt_trichotomy m j with hlt | heq | hgt
    · rw [if_neg (by omega), if_neg (by omega), getD_set_ne (by omega)]
    · subst heq
      rw [if_neg (by omega), if_pos ⟨le_refl m, by omega⟩]
      exact getD_set_self (by omega)
    · by_cases hm : m < 8
      · rw [if_pos ⟨by omega, hm⟩, if_pos ⟨by omega, hm⟩]
      · rw [if_neg (by omega), if_neg (by omega), getD_set_ne (by omega)]

theorem challengeSets_spec (iv C : List Nat) (hlen : iv.length = 16) :
    ((List.range 6).foldl (fun iv i => iv.set (10 + i) (C.getD i 0)) iv).length = 16 ∧
    (∀ m, m < 10 →
      ((List.range 6).foldl (fun iv i => iv.set (10 + i) (C.getD i 0)) iv).getD m 0
        = iv.getD m 0) ∧
    ∀ k, k < 6 →
      ((List.range 6).foldl (fun iv i => iv.set (10 + i) (C.getD i 0)) iv).getD (10 + k) 0
        = C.getD k 0 := by
  have hr : List.range 6 = [0, 1, 2, 3, 4, 5] := rfl
  rw [hr]
  simp only [List.foldl_cons, List.foldl_nil]
  refine ⟨by simp [List.length_set, hlen], fun m hm => ?_, fun k hk => ?_⟩
  · rw [getD_set_ne (by omega), getD_set_ne (by omega), getD_set_ne (by omega),
      getD_set_ne (by omega), getD_set_ne (by omega), getD_set_ne (by omega)]
  · interval_cases k
    · rw [getD_set_ne (by omega), getD_set_ne (by omega), getD_set_ne (by omega),
        getD_set_ne (by omega), getD_set_ne (by omega)]
      exact getD_set_self (by omega)
    · rw [getD_set_ne (by omega), getD_set_ne (by omega), getD_set_ne (by omega),
        getD_set_ne (by omega)]
      exact getD_set_self (by simp [List.length_set]; omega)
    · rw [getD_set_ne (by omega), getD_set_ne (by omega), getD_set_ne (by omega)]
      exact getD_set_self (by simp [List.length_set]; omega)
    · rw [getD_set_ne (by omega), getD_set_ne (by omega)]
      exact getD_set_self (by simp [List.length_set]; omega)
    · rw [getD_set_ne (by omega)]
      exact getD_set_self (by simp [List.length_set]; omega)
    · exact getD_set_self (by simp [List.length_set]; omega)

theorem ivSpec_length (F C : List Nat) : (ivSpec F C).length = 16 := by
  simp [ivSpec]

theorem constructIVsrc_length (F C : List Nat) : (constructIVsrc F C).length = 16 := by
  have len1 : (ivEncryptLoop F 0 (List.replicate 16 0)).length = 16 := by
    rw [ivEncryptLoop_length]
    simp
  rw [show constructIVsrc F C
      = (List.range 6).foldl (fun iv i => iv.set (10 + i) (C.getD i 0))
        (if F.length < 8 then ivPad55 (ivEncryptLoop F 0 (List.replicate 16 0)) F.length
         else ivEncryptLoop F 0 (List.replicate 16 0)) from rfl]
  by_cases hf : F.length < 8
  · rw [if_pos hf]
    exact (challengeSets_spec _ C ((ivPad55_spec (8 - F.length) F.length _ rfl len1).1)).1
  · rw [if_neg hf]
    exact (challengeSets_spec _ C len1).1


theorem getD_replicate16 (m : Nat) : (List.replicate 16 (0 : Nat)).getD m 0 = 0 := by
  by_cases hm : m < 16
  · rw [List.getD_eq_getElem _ _ (by simpa using hm)]
    rw [List.getElem_replicate]
  · exact List.getD_eq_default _ _ (by simpa using Nat.le_of_not_lt hm)

/-- C3: the IV built by the source loop equals the layout the spec
describes — the first eight frame bytes padded with `0x55`, the final
running-checksum accumulator over all frame bytes at positions 8 and 9, and
the six challenge bytes at positions 10..15. -/
theorem c3_iv_construction (F C : List Nat) (_hC : C.length = 6) :
    constructIVsrc F C = ivSpec F C := by
  have len1 : (ivEncryptLoop F 0 (List.replicate 16 0)).length = 16 := by
    rw [ivEncryptLoop_length]
    simp
  set iv1 := ivEncryptLoop F 0 (List.replicate 16 0) with hiv1def
  set iv2 := if F.length < 8 then ivPad55 iv1 F.length else iv1 with hiv2def
  have len2 : iv2.length = 16 := by
    rw [hiv2def]
    by_cases hf : F.length < 8
    · rw [if_pos hf]
      exact (ivPad55_spec (8 - F.length) F.length iv1 rfl len1).1
    · rw [if_neg hf]
      exact len1
  have h1low : ∀ j, j < 8 → iv1.getD j 0 = if j < F.length then F.getD j 0 else 0 := by
    intro j hj
    rw [hiv1def, ivEncryptLoop_getD_low F 0 _ j hj (by simp)]
    by_cases hjf : j < F.length
    · rw [if_pos ⟨Nat.zero_le j, by omega⟩, if_pos hjf, Nat.sub_zero]
    · rw [if_neg (by omega), if_neg hjf]
      exact getD_replicate16 j
  have h2low : ∀ j, j < 8 → iv2.getD j 0 = if j < F.length then F.getD j 0 else 0x55 := by
    intro j hj
    by_cases hjf : j < F.length
    · have hv1 : iv1.getD j 0 = F.getD j 0 := by rw [h1low j hj, if_pos hjf]
      rw [if_pos hjf, hiv2def]
      by_cases hf : F.length < 8
      · rw [if_pos hf, (ivPad55_spec (8 - F.length) F.length iv1 rfl len1).2 j,
          if_neg (by omega), hv1]
      · rw [if_neg hf, hv1]
    · have hf : F.length < 8 := by omega
      rw [if_neg hjf, hiv2def, if_pos hf, (ivPad55_spec (8 - F.length) F.length iv1 rfl len1).2 j,
        if_pos ⟨by omega, hj⟩]
  have hchk : (iv1.getD 8 0, iv1.getD 9 0) = checksumFold F := by
    have h := ivEncryptLoop_getD_chk F 0 (List.replicate 16 0) (by simp)
    rw [getD_replicate16 8, getD_replicate16 9] at h
    rw [hiv1def]
    exact h
  have hpad89 : ∀ m, 8 ≤ m → iv2.getD m 0 = iv1.getD m 0 := by
    intro m hm
    rw [hiv2def]
    by_cases hf : F.length < 8
    · rw [if_pos hf, (ivPad55_spec (8 - F.length) F.length iv1 rfl len1).2 m, if_neg (by omega)]
    · rw [if_neg hf]
  obtain ⟨lenO, hOlow, hOchal⟩ := challengeSets_spec iv2 C len2
  rw [show constructIVsrc F C
      = (List.range 6).foldl (fun iv i => iv.set (10 + i) (C.getD i 0)) iv2 from rfl]
  have lenSpec : (ivSpec F C).length = 16 := ivSpec_length F C
  have hA : ((List.range 8).map
      (fun i => if i < F.length then F.getD i 0 else 0x55)).length = 8 := by simp
  apply List.ext_getElem (by rw [lenO, lenSpec])
  intro i h1 h2
  have hi : i < 16 := by rw [lenO] at h1; exact h1
  rw [← List.getD_eq_getElem _ 0 h1, ← List.getD_eq_getElem _ 0 h2]
  rw [ivSpec]
  by_cases hi8 : i < 8
  · rw [hOlow i (by omega), h2low i hi8]
    rw [List.getD_append _ _ _ _ (by rw [List.length_append, hA]; simp; omega)]
    rw [List.getD_append _ _ _ _ (by rw [hA]; exact hi8)]
    rw [getD_map_range hi8]
  · by_cases hi10 : i < 10
    · rw [hOlow i hi10, hpad89 i (by omega)]
      rw [List.getD_append _ _ _ _ (by rw [List.length_append, hA]; simp; omega)]
      rw [List.getD_append_right _ _ _ _ (by rw [hA]; omega)]
      rw [hA]
      rcases (by omega : i = 8 ∨ i = 9) with h | h
      · subst h
        rw [show (8 - 8 : Nat) = 0 from rfl]
        exact congrArg Prod.fst hchk
      · subst h
        rw [show (9 - 8 : Nat) = 1 from rfl]
        exact congrArg Prod.snd hchk
    · have hk : i - 10 < 6 := by omega
      have h10 : i = 10 + (i - 10) := by omega
      rw [h10, hOchal (i - 10) hk]
      rw [List.getD_append_right _ _ _ _ (by rw [List.length_append, hA]; simp)]
      rw [List.length_append, hA]
      have : 10 + (i - 10) - (8 + 2) = i - 10 := by omega
      simp only [List.length_cons, List.length_nil]
      rw [this, getD_map_range hk]

theorem c3_iv_construction_witness :
    ([1, 2, 3, 4, 5, 6] : List Nat).length = 6 ∧
    constructIVsrc [0x31] [1, 2, 3, 4, 5, 6] = ivSpec [0x31] [1, 2, 3, 4, 5, 6] :=
  ⟨by decide, c3_iv_construction [0x31] [1, 2, 3, 4, 5, 6] (by decide)⟩

/-! ## Registry lookup lemmas -/

theorem findDev_updateDev (m : Mgr) (a x : Addr) (f : Device → Device) :
    findDev (updateDev m a f) x = if x = a then (findDev m a).map f else findDev m x := by
  induction m with
  | nil =>
    simp only [updateDev, findDev]
    split <;> rfl
  | cons hd rest ih =>
    obtain ⟨b, d⟩ := hd
    by_cases hba : b = a
    · subst hba
      by_cases hbx : b = x
      · subst hbx
        simp [updateDev, findDev]
      · have hxb : ¬ x = b := fun h => hbx h.symm
        simp [updateDev, findDev, hbx, hxb]
    · by_cases hbx : b = x
      · subst hbx
        have hxa : ¬ b = a := hba
        simp [updateDev, findDev, hba, hxa]
      · simp [updateDev, findDev, hba, hbx, ih]

theorem findDev_append (m1 m2 : Mgr) (x : Addr) :
    findDev (m1 ++ m2) x =
      match findDev m1 x with
      | some d => some d
      | none => findDev m2 x := by
  induction m1 with
  | nil => rfl
  | cons hd rest ih =>
    obtain ⟨b, d⟩ := hd
    by_cases hbx : b = x
    · simp only [List.cons_append, findDev, if_pos hbx]
    · simp only [List.cons_append, findDev, if_neg hbx]
      exact ih

theorem findDev_addDev_self (m : Mgr) (a : Addr) :
    findDev (addDev m a) a = some ((findDev m a).getD (mkDevice a)) := by
  unfold addDev
  by_cases hs : (findDev m a).isSome = true
  · rw [if_pos hs]
    obtain ⟨d, hd⟩ := Option.isSome_iff_exists.mp hs
    rw [hd]
    rfl
  · rw [if_neg hs]
    have hnone : findDev m a = none := Option.not_isSome_iff_eq_none.mp hs
    rw [findDev_append, hnone]
    simp [findDev]

theorem findDev_addDev_other (m : Mgr) (a x : Addr) (hx : x ≠ a) :
    findDev (addDev m a) x = findDev m x := by
  unfold addDev
  split
  · rfl
  · rw [findDev_append]
    cases h : findDev m x with
    | some d => rfl
    | none =>
      have hax : ¬ a = x := fun hh => hx hh.symm
      simp [findDev, hax]

/-! ## C2 — post-pairing challenge response MAC -/

theorem Packet.buffer_getD8 (p : Packet) : p.buffer.getD 8 0 = p.cmd := by
  rw [Packet.buffer, List.getD_append _ _ _ _ (by simp)]
  rfl

/-- C2: when a paired device with a recorded command sends a `0x3C`
challenge, the response handler answers with a single `0x3D` frame whose
six MAC bytes are `create_2W_hmac` over the received challenge, the device
system key, and the frame body consisting of the single byte `0x3D` — the
stored original command bytes do not enter the MAC. -/
theorem c2_challenge_response_mac (S : GState) (env : Env) (pkt : Packet) (dev : Device)
    (hfind : findDev S.mgr pkt.source = some dev)
    (hpaired : dev.pairingState = PAIRED)
    (hcmd : pkt.cmd = 0x3C)
    (hlast : dev.lastCommandLen > 0)
    (hradio : env.radioPresent = true) :
    (handleChallenge2W S env pkt).2.1 =
      [⟨controllerAddr, dev.nodeAddress, 0x3D,
        create2WHmac ((List.range 6).map (pkt.payload.getD · 0)) dev.systemKey [0x3D]⟩] ∧
    (handleChallenge2W S env pkt).2.2 = true := by
  have hguard : pkt.buffer.getD 8 0 ≥ 6 := by
    rw [Packet.buffer_getD8, hcmd]
    omega
  have hnotne : ¬ dev.pairingState ≠ PAIRED := by
    rw [hpaired]
    simp
  have hstore : mgrStoreChallenge S pkt.source ((List.range 6).map (pkt.payload.getD · 0)) 6 env.now
      = { S with mgr := updateDev S.mgr pkt.source (fun d => touchD env.now
          { d with lastChallenge := (List.range 6).map ((((List.range 6).map
              (pkt.payload.getD · 0))).getD · 0), hasPendingChallenge := true }) } := by
    unfold mgrStoreChallenge
    rw [if_neg (by omega), hfind]
  have hchal : (List.range 6).map ((((List.range 6).map (pkt.payload.getD · 0))).getD · 0)
      = (List.range 6).map (pkt.payload.getD · 0) := by
    refine List.map_congr_left ?_
    intro i hi
    exact getD_map_range (List.mem_range.mp hi)
  rw [hchal] at hstore
  unfold handleChallenge2W
  split
  next heq =>
    rw [hfind] at heq
    simp at heq
  next device heq =>
    rw [hfind] at heq
    obtain rfl : device = dev := by injection heq with h; exact h.symm
    rw [if_neg hnotne, if_pos hguard, hstore]
    rw [hradio, if_neg (by simp)]
    rw [findDev_updateDev, if_pos rfl, hfind]
    rw [Option.map_some']
    simp only [touchD]
    rw [if_pos hlast]
    constructor
    · rfl
    · rfl

theorem c2_challenge_response_mac_witness :
    findDev [(⟨1, 2, 3⟩, { mkDevice ⟨1, 2, 3⟩ with pairingState := PAIRED, lastCommandLen := 7 })]
        (⟨1, 2, 3⟩ : Addr)
      = some { mkDevice ⟨1, 2, 3⟩ with pairingState := PAIRED, lastCommandLen := 7 } ∧
    (handleChallenge2W
        ⟨[(⟨1, 2, 3⟩, { mkDevice ⟨1, 2, 3⟩ with pairingState := PAIRED, lastCommandLen := 7 })],
         none, initCtrl⟩
        ⟨0, true, false, []⟩
        ⟨⟨1, 2, 3⟩, controllerAddr, 0x3C, [9, 8, 7, 6, 5, 4]⟩).2.1 =
      [⟨controllerAddr,
        ({ mkDevice ⟨1, 2, 3⟩ with pairingState := PAIRED, lastCommandLen := 7 } : Device).nodeAddress,
        0x3D,
        create2WHmac
          ((List.range 6).map (([9, 8, 7, 6, 5, 4] : List Nat).getD · 0))
          ({ mkDevice ⟨1, 2, 3⟩ with pairingState := PAIRED, lastCommandLen := 7 } : Device).systemKey
          [0x3D]⟩] :=
  ⟨rfl,
   (c2_challenge_response_mac
      ⟨[(⟨1, 2, 3⟩, { mkDevice ⟨1, 2, 3⟩ with pairingState := PAIRED, lastCommandLen := 7 })],
       none, initCtrl⟩
      ⟨0, true, false, []⟩
      ⟨⟨1, 2, 3⟩, controllerAddr, 0x3C, [9, 8, 7, 6, 5, 4]⟩
      { mkDevice ⟨1, 2, 3⟩ with pairingState := PAIRED, lastCommandLen := 7 }
      rfl rfl rfl (by decide) rfl).1⟩

/-! ## C4 — startPairing preconditions and effect -/

theorem findDev_mgrStartPairing (S : GState) (a : Addr) (now : Nat) :
    findDev (mgrStartPairing S a now).mgr a
      = some (touchD now { (findDev S.mgr a).getD (mkDevice a) with
          pairingState := DISCOVERING, pairingStartTime := now }) := by
  unfold mgrStartPairing
  rw [findDev_updateDev, if_pos rfl, findDev_addDev_self]
  rfl

/-- C4: `startPairing` returns `false` and leaves the whole state untouched
when a session is already active or no system key is configured; otherwise
it returns `true`, records the address as the active target, activates the
session, and the device is in `DISCOVERING` with `pairingStartTime` set to
the current time. -/
theorem c4_startPairing_spec (S : GState) (a : Addr) (env : Env) :
    (S.ctrl.pairingActive = true ∨ S.ctrl.hasSystemKey = false →
      startPairingC S a env = (S, false)) ∧
    (S.ctrl.pairingActive = false → S.ctrl.hasSystemKey = true →
      (startPairingC S a env).2 = true ∧
      (startPairingC S a env).1.ctrl.pairingActive = true ∧
      (startPairingC S a env).1.ctrl.currentPairingAddr = a ∧
      ∃ d, findDev (startPairingC S a env).1.mgr a = some d ∧
        d.pairingState = DISCOVERING ∧ d.pairingStartTime = env.now ∧ d.lastSeen = env.now) := by
  constructor
  · intro h
    unfold startPairingC
    rcases h with h | h
    · rw [if_pos h]
    · by_cases hact : S.ctrl.pairingActive = true
      · rw [if_pos hact]
      · rw [if_neg hact, if_pos (by rw [h]; simp)]
  · intro hact hkey
    have hfind2 := findDev_mgrStartPairing { S with ctrl.currentPairingAddr := a } a env.now
    simp only [startPairingC]
    rw [if_neg (by rw [hact]; simp), if_neg (by rw [hkey]; simp)]
    rw [hfind2]
    exact ⟨rfl, rfl, rfl, _, hfind2, rfl, rfl, rfl⟩

theorem c4_startPairing_spec_witness :
    (startPairingC
        ⟨[], none, { initCtrl with systemKey2W := List.replicate 16 1, hasSystemKey := true }⟩
        ⟨7, 7, 7⟩ ⟨5000, true, false, []⟩).2 = true ∧
    startPairingC ⟨[], none, initCtrl⟩ ⟨7, 7, 7⟩ ⟨5000, true, false, []⟩
      = (⟨[], none, initCtrl⟩, false) :=
  ⟨((c4_startPairing_spec
      ⟨[], none, { initCtrl with systemKey2W := List.replicate 16 1, hasSystemKey := true }⟩
      ⟨7, 7, 7⟩ ⟨5000, true, false, []⟩).2 rfl rfl).1,
   (c4_startPairing_spec ⟨[], none, initCtrl⟩ ⟨7, 7, 7⟩ ⟨5000, true, false, []⟩).1 (Or.inr rfl)⟩

/-! ## C10 — zero-challenge substitution in sendKeyTransfer -/

/-- C10: called without a received challenge, `sendKeyTransfer` does not
fail: it substitutes the all-zero six-byte challenge, marks a challenge as
present, stores the system key in the device, and transmits CMD `0x32`
whose payload is the system key XOR-masked with the AES encryption of the
IV built from the frame byte `0x31` and the zero challenge. -/
theorem c10_zero_challenge (S : GState) (env : Env) (a : Addr) (dev : Device)
    (hnochal : S.ctrl.hasChallenge = false)
    (hfind : findDev S.mgr a = some dev)
    (hradio : env.radioPresent = true) (hbusy : env.radioBusy = false) :
    (sendKeyTransfer S env a).2.2 = true ∧
    (sendKeyTransfer S env a).1.ctrl.hasChallenge = true ∧
    (sendKeyTransfer S env a).1.ctrl.deviceChallenge = List.replicate 6 0 ∧
    (sendKeyTransfer S env a).2.1 =
      [⟨controllerAddr, a, 0x32,
        (List.range 16).map fun i =>
          S.ctrl.systemKey2W.getD i 0 ^^^
          (aesEncryptBlock transfertKey
            (constructIVsrc [0x31] (List.replicate 6 0))).getD i 0⟩] ∧
    ∃ d, findDev (sendKeyTransfer S env a).1.mgr a = some d ∧
      d.hasSystemKey = true ∧
      d.systemKey = (List.range 16).map (S.ctrl.systemKey2W.getD · 0) ∧
      d.pairingState = KEY_EXCHANGED := by
  have h16 : ¬ (16 < 16) := by decide
  simp only [sendKeyTransfer, hnochal, Bool.false_eq_true, not_false_eq_true, if_true,
    mgrStoreSystemKey, mgrStoreStackKey, saveToFile, sendPacketC, hradio, hbusy,
    h16, if_false, hfind, not_true, ite_false, ite_true, touchD,
    findDev_updateDev, Option.map_some', if_pos]
  exact ⟨trivial, trivial, trivial, trivial, _, rfl, rfl, rfl, rfl⟩

theorem c10_zero_challenge_witness :
    (sendKeyTransfer ⟨[(⟨1, 2, 3⟩, mkDevice ⟨1, 2, 3⟩)], none, initCtrl⟩
        ⟨0, true, false, []⟩ ⟨1, 2, 3⟩).2.2 = true ∧
    (sendKeyTransfer ⟨[(⟨1, 2, 3⟩, mkDevice ⟨1, 2, 3⟩)], none, initCtrl⟩
        ⟨0, true, false, []⟩ ⟨1, 2, 3⟩).1.ctrl.deviceChallenge = List.replicate 6 0 :=
  ⟨(c10_zero_challenge ⟨[(⟨1, 2, 3⟩, mkDevice ⟨1, 2, 3⟩)], none, initCtrl⟩
      ⟨0, true, false, []⟩ ⟨1, 2, 3⟩ (mkDevice ⟨1, 2, 3⟩) rfl rfl rfl rfl).1,
   (c10_zero_challenge ⟨[(⟨1, 2, 3⟩, mkDevice ⟨1, 2, 3⟩)], none, initCtrl⟩
      ⟨0, true, false, []⟩ ⟨1, 2, 3⟩ (mkDevice ⟨1, 2, 3⟩) rfl rfl rfl rfl).2.2.1⟩

/-! ## C7 — registry persistence round trip -/

theorem bytesOfHex_hexOfBytes (bs : List Nat) : bytesOfHex (hexOfBytes bs) = bs := by
  induction bs with
  | nil => rfl
  | cons b rest ih =>
    have h : hexOfBytes (b :: rest) = b / 16 :: b % 16 :: hexOfBytes rest := by
      simp [hexOfBytes]
    rw [h]
    show (16 * (b / 16) + b % 16) :: bytesOfHex (hexOfBytes rest) = b :: rest
    rw [ih, Nat.div_add_mod b 16]

theorem hexOfBytes_length (bs : List Nat) : (hexOfBytes bs).length = 2 * bs.length := by
  induction bs with
  | nil => rfl
  | cons b rest ih =>
    have h : hexOfBytes (b :: rest) = b / 16 :: b % 16 :: hexOfBytes rest := by
      simp [hexOfBytes]
    rw [h]
    simp only [List.length_cons, ih]
    omega

theorem parseState_stateStr (st : PairingState) (h : stateParseable st = true) :
    parseState (stateStr st) = st := by
  cases st <;> revert h <;> decide

/-- The round-trip failure C7 hits: a device saved in `CHALLENGE_SENT` (a
state the happy-path pairing flow passes through) is loaded back as
`UNPAIRED`, because `fromJson` has no parse arm for that state string. -/
theorem c7_counterexample :
    (fromJsonD ⟨1, 2, 3⟩
        (toJsonD { mkDevice ⟨1, 2, 3⟩ with pairingState := CHALLENGE_SENT })).pairingState
      = UNPAIRED ∧
    (CHALLENGE_SENT = UNPAIRED → False) := by
  constructor
  · decide
  · decide

/-- C7 (amended): the save/load round trip restores address, pairing state,
keys, sequence number, capabilities and description exactly, provided the
device is well-formed and its pairing state is one the parser knows
(`fromJson` collapses `BROADCASTING_2A`, `WAITING_BEFORE_LEARNING`,
`CHALLENGE_SENT` and `ASKING_CHALLENGE` to `UNPAIRED`, as the
counterexample shows). -/
theorem c7_roundtrip_amended (a : Addr) (d : Device)
    (hwf : WFDevice d) (haddr : d.nodeAddress = a)
    (hstate : stateParseable d.pairingState = true) :
    (fromJsonD a (toJsonD d)).nodeAddress = d.nodeAddress ∧
    (fromJsonD a (toJsonD d)).pairingState = d.pairingState ∧
    (fromJsonD a (toJsonD d)).systemKey = d.systemKey ∧
    (fromJsonD a (toJsonD d)).hasSystemKey = d.hasSystemKey ∧
    (fromJsonD a (toJsonD d)).sessionKey = d.sessionKey ∧
    (fromJsonD a (toJsonD d)).hasSessionKey = d.hasSessionKey ∧
    (fromJsonD a (toJsonD d)).stackKey = d.stackKey ∧
    (fromJsonD a (toJsonD d)).hasStackKey = d.hasStackKey ∧
    (fromJsonD a (toJsonD d)).sequenceNumber = d.sequenceNumber ∧
    (fromJsonD a (toJsonD d)).capabilities = d.capabilities ∧
    (fromJsonD a (toJsonD d)).description = d.description := by
  have hps := parseState_stateStr d.pairingState hstate
  obtain ⟨naddr, ps, ls, pst, sk, hskB, ssk, hsskB, seq, stk, hstkB,
    lch, lrsp, hpc, lcmd, lclen, lcbyte, caps, desc⟩ := d
  obtain ⟨nt, nst, mf, mi, ts, nm, gi1, hgi1B, gi2, hgi2B, att, scg, rfs, iom, psm⟩ := caps
  obtain ⟨hsl, _, hssl, _, hstl, _, hg1l, _, hg2l, _, hsz, hssz, hstz, hg1z, hg2z⟩ := hwf
  simp only at hsl hssl hstl hg1l hg2l hsz hssz hstz hg1z hg2z hps haddr
  cases hskB <;> cases hsskB <;> cases hstkB <;> cases hgi1B <;> cases hgi2B <;>
    simp_all [toJsonD, fromJsonD, mkDevice, defaultCapabilities, hexOfBytes_length,
      bytesOfHex_hexOfBytes]

theorem c7_roundtrip_amended_witness :
    WFDevice { mkDevice ⟨1, 2, 3⟩ with pairingState := PAIRED, hasSystemKey := true, systemKey := List.replicate 16 5 } ∧
    (fromJsonD ⟨1, 2, 3⟩ (toJsonD { mkDevice ⟨1, 2, 3⟩ with pairingState := PAIRED, hasSystemKey := true, systemKey := List.replicate 16 5 })).pairingState = PAIRED ∧
    (fromJsonD ⟨1, 2, 3⟩ (toJsonD { mkDevice ⟨1, 2, 3⟩ with pairingState := PAIRED, hasSystemKey := true, systemKey := List.replicate 16 5 })).systemKey = List.replicate 16 5 :=
  ⟨by decide,
   (c7_roundtrip_amended ⟨1, 2, 3⟩
      { mkDevice ⟨1, 2, 3⟩ with pairingState := PAIRED, hasSystemKey := true, systemKey := List.replicate 16 5 }
      (by decide) rfl rfl).2.1,
   (c7_roundtrip_amended ⟨1, 2, 3⟩
      { mkDevice ⟨1, 2, 3⟩ with pairingState := PAIRED, hasSystemKey := true, systemKey := List.replicate 16 5 }
      (by decide) rfl rfl).2.2.1⟩

/-! ## Reachability -/

theorem applyOps_cons (S : GState) (op : Op) (ops : List Op) :
    applyOps S (op :: ops) = applyOps (applyOp S op) ops := rfl

theorem reachable_applyOps (ops : List Op) : ∀ S : GState,
    Relation.ReflTransGen StepAll S (applyOps S ops) := by
  induction ops with
  | nil => intro S; exact Relation.ReflTransGen.refl
  | cons op rest ih =>
    intro S
    rw [applyOps_cons]
    exact Relation.ReflTransGen.head ⟨op, rfl⟩ (ih (applyOp S op))

/-! ## C8 — peer-not-ready accounting -/

/-- C8 counterexample: starting a session and receiving six straight
`0xFE` frames with status `0x08` leaves the session active and the device
still `DISCOVERING` — the abort only fires on the seventh reply, and it
reverts the device to `UNPAIRED`, not to the failed state. -/
theorem c8_counterexample :
    Relation.ReflTransGen StepAll initG
      (applyOps initG ([Op.setKey (List.range 16), Op.startPair ⟨1, 2, 3⟩ ⟨0, true, false, []⟩]
        ++ List.replicate 6 (Op.rxPairing ⟨0, true, false, []⟩
             ⟨⟨1, 2, 3⟩, controllerAddr, 0xFE, [0x08]⟩))) ∧
    (applyOps initG ([Op.setKey (List.range 16), Op.startPair ⟨1, 2, 3⟩ ⟨0, true, false, []⟩]
        ++ List.replicate 6 (Op.rxPairing ⟨0, true, false, []⟩
             ⟨⟨1, 2, 3⟩, controllerAddr, 0xFE, [0x08]⟩))).ctrl.pairingActive = true ∧
    ((findDev (applyOps initG ([Op.setKey (List.range 16),
          Op.startPair ⟨1, 2, 3⟩ ⟨0, true, false, []⟩]
        ++ List.replicate 6 (Op.rxPairing ⟨0, true, false, []⟩
             ⟨⟨1, 2, 3⟩, controllerAddr, 0xFE, [0x08]⟩))).mgr ⟨1, 2, 3⟩).map
        (fun d => decide (d.pairingState = DISCOVERING))) = some true ∧
    ((applyOps initG ([Op.setKey (List.range 16), Op.startPair ⟨1, 2, 3⟩ ⟨0, true, false, []⟩]
        ++ List.replicate 6 (Op.rxPairing ⟨0, true, false, []⟩
             ⟨⟨1, 2, 3⟩, controllerAddr, 0xFE, [0x08]⟩)
        ++ [Op.rxPairing ⟨0, true, false, []⟩ ⟨⟨1, 2, 3⟩, controllerAddr, 0xFE, [0x08]⟩]))).ctrl.pairingActive = false ∧
    ((findDev (applyOps initG ([Op.setKey (List.range 16),
          Op.startPair ⟨1, 2, 3⟩ ⟨0, true, false, []⟩]
        ++ List.replicate 6 (Op.rxPairing ⟨0, true, false, []⟩
             ⟨⟨1, 2, 3⟩, controllerAddr, 0xFE, [0x08]⟩)
        ++ [Op.rxPairing ⟨0, true, false, []⟩
             ⟨⟨1, 2, 3⟩, controllerAddr, 0xFE, [0x08]⟩])).mgr ⟨1, 2, 3⟩).map
        (fun d => decide (d.pairingState = UNPAIRED))) = some true :=
  ⟨reachable_applyOps _ _, by decide, by decide, by decide, by decide⟩

theorem cancelPairingC_eq (S : GState) (dev : Device)
    (hactive : S.ctrl.pairingActive = true)
    (hfind : findDev S.mgr S.ctrl.currentPairingAddr = some dev) :
    (cancelPairingC S).mgr
        = updateDev S.mgr S.ctrl.currentPairingAddr (fun d => { d with pairingState := UNPAIRED }) ∧
    (cancelPairingC S).ctrl.pairingActive = false ∧
    (cancelPairingC S).ctrl.errorCount = S.ctrl.errorCount ∧
    (cancelPairingC S).file = S.file := by
  unfold cancelPairingC
  rw [if_neg (by rw [hactive]; simp), hfind]
  exact ⟨rfl, rfl, rfl, rfl⟩

/-- C8 (amended): during an active session a `0xFE` status-`0x08` reply from
the pairing device increments the cumulative error counter; the session is
cancelled only when that counter exceeds six — on the seventh reply, not the
sixth — and cancellation reverts the device to `UNPAIRED` rather than
`PAIRING_FAILED`. -/
theorem c8_peer_not_ready_amended (S : GState) (env : Env) (pkt : Packet) (dev : Device)
    (hactive : S.ctrl.pairingActive = true)
    (hsrc : pkt.source = S.ctrl.currentPairingAddr)
    (hfind : findDev S.mgr S.ctrl.currentPairingAddr = some dev)
    (hcmd : pkt.cmd = 0xFE)
    (hpay : pkt.payload = [0x08]) :
    (S.ctrl.errorCount + 1 > 6 →
      (handlePairingPacket S env pkt).1.ctrl.pairingActive = false ∧
      (handlePairingPacket S env pkt).1.ctrl.errorCount = 0 ∧
      ∃ d, findDev (handlePairingPacket S env pkt).1.mgr S.ctrl.currentPairingAddr = some d ∧
        d.pairingState = UNPAIRED) ∧
    (S.ctrl.errorCount + 1 ≤ 6 →
      (handlePairingPacket S env pkt).1.ctrl.pairingActive = true ∧
      (handlePairingPacket S env pkt).1.ctrl.errorCount = S.ctrl.errorCount + 1 ∧
      (handlePairingPacket S env pkt).1.mgr = S.mgr) := by
  have hred : handlePairingPacket S env pkt = (handleErrorStatus S 0x08, [], true) := by
    simp only [handlePairingPacket, hppDispatch, hcmd, hpay, Packet.payloadLen, hsrc]
    norm_num
    rw [hactive]
    simp [hfind]
  rw [hred]
  unfold handleErrorStatus
  rw [if_pos rfl]
  constructor
  · intro hgt
    rw [if_pos hgt]
    obtain ⟨hcm, hca, hce, _⟩ := cancelPairingC_eq { S with ctrl.errorCount := S.ctrl.errorCount + 1 } dev
      (by simpa using hactive) (by simpa using hfind)
    refine ⟨hca, rfl, ?_⟩
    show ∃ d, findDev (cancelPairingC { S with ctrl.errorCount := S.ctrl.errorCount + 1 }).mgr
        S.ctrl.currentPairingAddr = some d ∧ d.pairingState = UNPAIRED
    rw [hcm]
    rw [findDev_updateDev, if_pos rfl]
    have hfind2 : findDev S.mgr S.ctrl.currentPairingAddr = some dev := hfind
    rw [show findDev ({ S with ctrl.errorCount := S.ctrl.errorCount + 1 } : GState).mgr
        ({ S with ctrl.errorCount := S.ctrl.errorCount + 1 } : GState).ctrl.currentPairingAddr
        = some dev from hfind]
    exact ⟨_, rfl, rfl⟩
  · intro hle
    rw [if_neg (by omega)]
    exact ⟨hactive, rfl, rfl⟩

theorem c8_peer_not_ready_amended_witness :
    (handlePairingPacket
        ⟨[(⟨1, 2, 3⟩, mkDevice ⟨1, 2, 3⟩)], none, { initCtrl with pairingActive := true, currentPairingAddr := ⟨1, 2, 3⟩, errorCount := 6 }⟩
        ⟨0, true, false, []⟩
        ⟨⟨1, 2, 3⟩, controllerAddr, 0xFE, [0x08]⟩).1.ctrl.pairingActive = false ∧
    (handlePairingPacket
        ⟨[(⟨1, 2, 3⟩, mkDevice ⟨1, 2, 3⟩)], none, { initCtrl with pairingActive := true, currentPairingAddr := ⟨1, 2, 3⟩ }⟩
        ⟨0, true, false, []⟩
        ⟨⟨1, 2, 3⟩, controllerAddr, 0xFE, [0x08]⟩).1.ctrl.errorCount = 1 :=
  ⟨((c8_peer_not_ready_amended
      ⟨[(⟨1, 2, 3⟩, mkDevice ⟨1, 2, 3⟩)], none, { initCtrl with pairingActive := true, currentPairingAddr := ⟨1, 2, 3⟩, errorCount := 6 }⟩
      ⟨0, true, false, []⟩ ⟨⟨1, 2, 3⟩, controllerAddr, 0xFE, [0x08]⟩
      (mkDevice ⟨1, 2, 3⟩) rfl rfl rfl rfl rfl).1 (by decide)).1,
   (((c8_peer_not_ready_amended
      ⟨[(⟨1, 2, 3⟩, mkDevice ⟨1, 2, 3⟩)], none, { initCtrl with pairingActive := true, currentPairingAddr := ⟨1, 2, 3⟩ }⟩
      ⟨0, true, false, []⟩ ⟨⟨1, 2, 3⟩, controllerAddr, 0xFE, [0x08]⟩
      (mkDevice ⟨1, 2, 3⟩) rfl rfl rfl rfl rfl).2 (by decide)).2).1⟩

/-! ## C9 — umbrella timeout coverage -/

/-- C9 counterexample: a device that reached `KEY_EXCHANGED` (via `0x2F`
status `0x02`) with `pairingStartTime = 0` is ticked at 40 s — well past the
30-second umbrella — yet the tick does not fail it: the device is promoted
to `PAIRED` and the session stays active, because `hasPairingTimedOut`
ignores states outside `isPairing`. -/
theorem c9_counterexample :
    Relation.ReflTransGen StepAll initG
      (applyOps initG [Op.setKey (List.range 16), Op.startPair ⟨1, 2, 3⟩ ⟨0, true, false, []⟩,
        Op.rxPairing ⟨0, true, false, []⟩ ⟨⟨1, 2, 3⟩, controllerAddr, 0x2F, [0x02]⟩,
        Op.tick ⟨40000, true, false, []⟩]) ∧
    ((findDev (applyOps initG [Op.setKey (List.range 16),
          Op.startPair ⟨1, 2, 3⟩ ⟨0, true, false, []⟩,
          Op.rxPairing ⟨0, true, false, []⟩ ⟨⟨1, 2, 3⟩, controllerAddr, 0x2F, [0x02]⟩,
          Op.tick ⟨40000, true, false, []⟩]).mgr ⟨1, 2, 3⟩).map
        (fun d => (decide (d.pairingState = PAIRED), decide (d.pairingState = PAIRING_FAILED),
          d.pairingStartTime))) = some (true, false, 0) ∧
    (applyOps initG [Op.setKey (List.range 16), Op.startPair ⟨1, 2, 3⟩ ⟨0, true, false, []⟩,
        Op.rxPairing ⟨0, true, false, []⟩ ⟨⟨1, 2, 3⟩, controllerAddr, 0x2F, [0x02]⟩,
        Op.tick ⟨40000, true, false, []⟩]).ctrl.pairingActive = true :=
  ⟨reachable_applyOps _ _, by decide, by decide⟩

/-- C9 (amended): the umbrella timeout is conditional twice over.  (1) On a
tick where no scheduled retry fires, a session past the 30-second deadline is
failed and ended only if the device's state is in the `isPairing` subset
(`DISCOVERING`, `ALIVE_CHECK`, `WAITING_BEFORE_LEARNING`, `LEARNING_MODE`,
`CHALLENGE_RECEIVED`, `PAIRING_CONFIRMED`, `ASKING_CHALLENGE`); in
`CHALLENGE_SENT` (outside that subset) the tick leaves the registry untouched
and the session alive.  (2) The no-retry condition is not dispensable:
`process` runs `processRetry` before the timeout check, so a due key-transfer
retry that succeeds moves the device to `KEY_EXCHANGED` — outside `isPairing`
— before the check, and the past-deadline device survives the tick with the
session still active.  The second conjunct exhibits this on a concrete
reachable state (device in `ASKING_CHALLENGE` past deadline with a pending
key-transfer retry at tick start). -/
theorem c9_timeout_amended :
    (∀ (S : GState) (env : Env) (dev : Device),
      S.ctrl.pairingActive = true →
      S.ctrl.pendingRetry = none →
      findDev S.mgr S.ctrl.currentPairingAddr = some dev →
      env.now - dev.pairingStartTime > 30000 →
      (dev.pairingState.isPairing = true →
        (processC S env).1.ctrl.pairingActive = false ∧
        ∃ d, findDev (processC S env).1.mgr S.ctrl.currentPairingAddr = some d ∧
          d.pairingState = PAIRING_FAILED) ∧
      (dev.pairingState = CHALLENGE_SENT →
        (processC S env).1.mgr = S.mgr ∧ (processC S env).1.ctrl.pairingActive = true)) ∧
    (Relation.ReflTransGen StepAll initG
      (applyOps initG [Op.setKey (List.range 16),
        Op.startPair ⟨1, 2, 3⟩ ⟨0, true, false, []⟩,
        Op.rxPairing ⟨0, true, false, []⟩ ⟨⟨1, 2, 3⟩, controllerAddr, 0x29, []⟩,
        Op.rxPairing ⟨0, true, true, []⟩
          ⟨⟨1, 2, 3⟩, controllerAddr, 0x3C, [9, 8, 7, 6, 5, 4]⟩]) ∧
    ((findDev (applyOps initG [Op.setKey (List.range 16),
        Op.startPair ⟨1, 2, 3⟩ ⟨0, true, false, []⟩,
        Op.rxPairing ⟨0, true, false, []⟩ ⟨⟨1, 2, 3⟩, controllerAddr, 0x29, []⟩,
        Op.rxPairing ⟨0, true, true, []⟩
          ⟨⟨1, 2, 3⟩, controllerAddr, 0x3C, [9, 8, 7, 6, 5, 4]⟩]).mgr ⟨1, 2, 3⟩).map
      (fun d => (d.pairingState.isPairing,
        decide ((40000 : Nat) - d.pairingStartTime > 30000)))) = some (true, true) ∧
    (applyOps initG [Op.setKey (List.range 16),
        Op.startPair ⟨1, 2, 3⟩ ⟨0, true, false, []⟩,
        Op.rxPairing ⟨0, true, false, []⟩ ⟨⟨1, 2, 3⟩, controllerAddr, 0x29, []⟩,
        Op.rxPairing ⟨0, true, true, []⟩
          ⟨⟨1, 2, 3⟩, controllerAddr, 0x3C, [9, 8, 7, 6, 5, 4]⟩]).ctrl.pendingRetry
      = some RetryOp.keyTransfer ∧
    ((findDev (applyOps initG [Op.setKey (List.range 16),
        Op.startPair ⟨1, 2, 3⟩ ⟨0, true, false, []⟩,
        Op.rxPairing ⟨0, true, false, []⟩ ⟨⟨1, 2, 3⟩, controllerAddr, 0x29, []⟩,
        Op.rxPairing ⟨0, true, true, []⟩
          ⟨⟨1, 2, 3⟩, controllerAddr, 0x3C, [9, 8, 7, 6, 5, 4]⟩,
        Op.tick ⟨40000, true, false, []⟩]).mgr ⟨1, 2, 3⟩).map
      (fun d => (decide (d.pairingState = PAIRING_FAILED),
        decide (d.pairingState = KEY_EXCHANGED)))) = some (false, true) ∧
    (applyOps initG [Op.setKey (List.range 16),
        Op.startPair ⟨1, 2, 3⟩ ⟨0, true, false, []⟩,
        Op.rxPairing ⟨0, true, false, []⟩ ⟨⟨1, 2, 3⟩, controllerAddr, 0x29, []⟩,
        Op.rxPairing ⟨0, true, true, []⟩
          ⟨⟨1, 2, 3⟩, controllerAddr, 0x3C, [9, 8, 7, 6, 5, 4]⟩,
        Op.tick ⟨40000, true, false, []⟩]).ctrl.pairingActive = true) := by
  constructor
  · intro S env dev hactive hretry hfind htime
    have hpr : processRetryC S env = (S, []) := by
      unfold processRetryC
      rw [hretry]
    constructor
    · intro hpairing
      have htimeout : dev.hasPairingTimedOut env.now = true := by
        unfold Device.hasPairingTimedOut
        rw [Device.isPairing] at *
        rw [if_neg (by rw [hpairing]; simp)]
        simpa using htime
      have hfail : mgrFailPairing S S.ctrl.currentPairingAddr env.now
          = { S with mgr := updateDev S.mgr S.ctrl.currentPairingAddr (fun d => touchD env.now { d with pairingState := PAIRING_FAILED }) } := by
        unfold mgrFailPairing
        rw [hfind]
      simp only [processC, hpr, hactive, Bool.true_eq_false, not_true, if_false,
        Bool.not_true, ite_false, hfind, htimeout, if_true, ite_true, hfail]
      refine ⟨trivial, ?_⟩
      rw [findDev_updateDev, if_pos rfl, hfind]
      exact ⟨_, rfl, rfl⟩
    · intro hcs
      have htimeout : dev.hasPairingTimedOut env.now = false := by
        unfold Device.hasPairingTimedOut
        rw [if_pos (by rw [Device.isPairing, hcs]; simp [PairingState.isPairing])]
      simp only [processC, hpr, hactive, Bool.true_eq_false, not_true, if_false,
        Bool.not_true, ite_false, hfind, htimeout, hcs, ite_true]
      rw [if_neg (by simp)]
      split
      · exact ⟨rfl, rfl⟩
      · exact ⟨rfl, hactive⟩
  · exact ⟨reachable_applyOps _ _, by decide, by decide, by decide, by decide⟩

/-- C9 witness: a `DISCOVERING` device with `pairingStartTime = 0`, no
pending retry and an active session, ticked at 40 s, ends with the session
inactive. -/
theorem c9_timeout_amended_witness :
    (processC
        ⟨[(⟨1, 2, 3⟩, { mkDevice ⟨1, 2, 3⟩ with pairingState := DISCOVERING })], none, { initCtrl with pairingActive := true, currentPairingAddr := ⟨1, 2, 3⟩ }⟩
        ⟨40000, true, false, []⟩).1.ctrl.pairingActive = false :=
  ((c9_timeout_amended.1
      ⟨[(⟨1, 2, 3⟩, { mkDevice ⟨1, 2, 3⟩ with pairingState := DISCOVERING })], none, { initCtrl with pairingActive := true, currentPairingAddr := ⟨1, 2, 3⟩ }⟩
      ⟨40000, true, false, []⟩
      { mkDevice ⟨1, 2, 3⟩ with pairingState := DISCOVERING }
      rfl rfl rfl (by decide)).1 (by decide)).1

/-! ## C5 / C6 counterexamples -/

/-- C5 counterexample: start pairing device A, save the registry mid-pairing
with the operator save command, reload the durable file, then start pairing
device B — the reloaded registry still holds A in `DISCOVERING`, so two
devices are now in non-terminal states. -/
theorem c5_counterexample :
    Relation.ReflTransGen StepAll initG
      (applyOps initG [Op.setKey (List.range 16), Op.startPair ⟨1, 2, 3⟩ ⟨0, true, false, []⟩,
        Op.save, Op.cancelPair, Op.reload, Op.startPair ⟨4, 5, 6⟩ ⟨0, true, false, []⟩]) ∧
    countNonTerminal
      (applyOps initG [Op.setKey (List.range 16), Op.startPair ⟨1, 2, 3⟩ ⟨0, true, false, []⟩,
        Op.save, Op.cancelPair, Op.reload, Op.startPair ⟨4, 5, 6⟩ ⟨0, true, false, []⟩]) = 2 ∧
    ¬ countNonTerminal
      (applyOps initG [Op.setKey (List.range 16), Op.startPair ⟨1, 2, 3⟩ ⟨0, true, false, []⟩,
        Op.save, Op.cancelPair, Op.reload, Op.startPair ⟨4, 5, 6⟩ ⟨0, true, false, []⟩]) ≤ 1 :=
  ⟨reachable_applyOps _ _, by decide, by decide⟩

/-- C6 counterexample: pair device A (completed by the unguarded `0x33`
branch), then let it send a `0x3C` challenge before any command was issued —
the handler stores the challenge and raises `pending_challenge` while
`last_command` is still empty. -/
theorem c6_counterexample :
    Relation.ReflTransGen StepAll initG
      (applyOps initG [Op.setKey (List.range 16), Op.startPair ⟨1, 2, 3⟩ ⟨0, true, false, []⟩,
        Op.rxPairing ⟨0, true, false, []⟩ ⟨⟨1, 2, 3⟩, controllerAddr, 0x33, []⟩,
        Op.rxChallenge ⟨0, true, false, []⟩ ⟨⟨1, 2, 3⟩, controllerAddr, 0x3C, [9, 8, 7, 6, 5, 4]⟩]) ∧
    ((findDev (applyOps initG [Op.setKey (List.range 16),
          Op.startPair ⟨1, 2, 3⟩ ⟨0, true, false, []⟩,
          Op.rxPairing ⟨0, true, false, []⟩ ⟨⟨1, 2, 3⟩, controllerAddr, 0x33, []⟩,
          Op.rxChallenge ⟨0, true, false, []⟩
            ⟨⟨1, 2, 3⟩, controllerAddr, 0x3C, [9, 8, 7, 6, 5, 4]⟩]).mgr ⟨1, 2, 3⟩).map
        (fun d => (d.hasPendingChallenge, d.lastCommandLen))) = some (true, 0) :=
  ⟨reachable_applyOps _ _, by decide⟩

/-! ## Serial-pairing invariant: core transfer lemmas -/

theorem map_fst_updateDev (m : Mgr) (a : Addr) (f : Device → Device) :
    (updateDev m a f).map Prod.fst = m.map Prod.fst := by
  induction m with
  | nil => rfl
  | cons hd rest ih =>
    obtain ⟨b, d⟩ := hd
    by_cases hba : b = a
    · simp [updateDev, hba]
    · simp [updateDev, hba, ih]

theorem not_mem_of_findDev_none (m : Mgr) (x : Addr) (h : findDev m x = none) :
    x ∉ m.map Prod.fst := by
  induction m with
  | nil => simp
  | cons hd rest ih =>
    obtain ⟨b, d⟩ := hd
    by_cases hbx : b = x
    · rw [findDev, if_pos hbx] at h
      cases h
    · rw [findDev, if_neg hbx] at h
      simp only [List.map_cons, List.mem_cons]
      rintro (h1 | h2)
      · exact hbx h1.symm
      · exact ih h h2

theorem nodup_fst_addDev (m : Mgr) (a : Addr) (h : (m.map Prod.fst).Nodup) :
    ((addDev m a).map Prod.fst).Nodup := by
  unfold addDev
  by_cases hs : (findDev m a).isSome = true
  · rw [if_pos hs]
    exact h
  · rw [if_neg hs]
    have hnone : findDev m a = none := Option.not_isSome_iff_eq_none.mp hs
    rw [List.map_append]
    simp only [List.map_cons, List.map_nil]
    rw [List.nodup_append]
    exact ⟨h, List.nodup_singleton a, by
      intro x hx hy
      simp only [List.mem_singleton] at hy
      subst hy
      exact not_mem_of_findDev_none m x hnone hx⟩

theorem inv_transfer (S S' : GState)
    (hfst : S'.mgr.map Prod.fst = S.mgr.map Prod.fst)
    (hstates : ∀ a, (findDev S'.mgr a).map (fun d => d.pairingState)
      = (findDev S.mgr a).map (fun d => d.pairingState))
    (hact : S'.ctrl.pairingActive = S.ctrl.pairingActive)
    (hcur : S'.ctrl.currentPairingAddr = S.ctrl.currentPairingAddr)
    (h : SerialInv S) : SerialInv S' := by
  obtain ⟨hnd, hinv⟩ := h
  refine ⟨hfst ▸ hnd, fun a d hfind hterm => ?_⟩
  have hs := hstates a
  rw [hfind] at hs
  cases hfd : findDev S.mgr a with
  | none => rw [hfd] at hs; cases hs
  | some d0 =>
    rw [hfd] at hs
    simp only [Option.map_some', Option.some.injEq] at hs
    obtain ⟨ha, hc⟩ := hinv a d0 hfd (hs ▸ hterm)
    exact ⟨hact.trans ha, hcur ▸ hc⟩

theorem inv_update_pres (S : GState) (x : Addr) (f : Device → Device)
    (file' : Option (List (Addr × DeviceJson))) (ctrl' : Ctrl)
    (hf : ∀ d, (f d).pairingState = d.pairingState)
    (hact : ctrl'.pairingActive = S.ctrl.pairingActive)
    (hcur : ctrl'.currentPairingAddr = S.ctrl.currentPairingAddr)
    (h : SerialInv S) : SerialInv ⟨updateDev S.mgr x f, file', ctrl'⟩ := by
  refine inv_transfer S _ (map_fst_updateDev _ _ _) (fun a => ?_) hact hcur h
  show (findDev (updateDev S.mgr x f) a).map (fun d => d.pairingState) = _
  rw [findDev_updateDev]
  by_cases hax : a = x
  · rw [if_pos hax]
    cases hfd : findDev S.mgr x with
    | none => subst hax; rw [hfd]; rfl
    | some d0 =>
      subst hax
      rw [hfd]
      simp [hf d0]
  · rw [if_neg hax]

theorem inv_update_current (S : GState) (f : Device → Device)
    (file' : Option (List (Addr × DeviceJson))) (ctrl' : Ctrl)
    (hact' : ctrl'.pairingActive = true)
    (hcur' : ctrl'.currentPairingAddr = S.ctrl.currentPairingAddr)
    (h : SerialInv S) :
    SerialInv ⟨updateDev S.mgr S.ctrl.currentPairingAddr f, file', ctrl'⟩ := by
  obtain ⟨hnd, hinv⟩ := h
  refine ⟨by rw [show (⟨updateDev S.mgr S.ctrl.currentPairingAddr f, file', ctrl'⟩ : GState).mgr
      = updateDev S.mgr S.ctrl.currentPairingAddr f from rfl, map_fst_updateDev]; exact hnd,
    fun a d hfind hterm => ?_⟩
  rw [show (⟨updateDev S.mgr S.ctrl.currentPairingAddr f, file', ctrl'⟩ : GState).mgr
      = updateDev S.mgr S.ctrl.currentPairingAddr f from rfl] at hfind
  rw [findDev_updateDev] at hfind
  by_cases hax : a = S.ctrl.currentPairingAddr
  · exact ⟨hact', hcur' ▸ hax⟩
  · rw [if_neg hax] at hfind
    obtain ⟨_, hc⟩ := hinv a d hfind hterm
    exact absurd hc hax

theorem inv_update_current_terminal (S : GState) (f : Device → Device)
    (file' : Option (List (Addr × DeviceJson))) (ctrl' : Ctrl)
    (hterm : ∀ d, (f d).pairingState.isTerminal = true)
    (h : SerialInv S) :
    SerialInv ⟨updateDev S.mgr S.ctrl.currentPairingAddr f, file', ctrl'⟩ := by
  obtain ⟨hnd, hinv⟩ := h
  refine ⟨by rw [show (⟨updateDev S.mgr S.ctrl.currentPairingAddr f, file', ctrl'⟩ : GState).mgr
      = updateDev S.mgr S.ctrl.currentPairingAddr f from rfl, map_fst_updateDev]; exact hnd,
    fun a d hfind hterm2 => ?_⟩
  rw [show (⟨updateDev S.mgr S.ctrl.currentPairingAddr f, file', ctrl'⟩ : GState).mgr
      = updateDev S.mgr S.ctrl.currentPairingAddr f from rfl] at hfind
  rw [findDev_updateDev] at hfind
  by_cases hax : a = S.ctrl.currentPairingAddr
  · rw [if_pos hax] at hfind
    cases hfd : findDev S.mgr S.ctrl.currentPairingAddr with
    | none => rw [hfd] at hfind; cases hfind
    | some d0 =>
      rw [hfd] at hfind
      simp only [Option.map_some', Option.some.injEq] at hfind
      rw [← hfind] at hterm2
      rw [hterm d0] at hterm2
      cases hterm2
  · rw [if_neg hax] at hfind
    obtain ⟨_, hc⟩ := hinv a d hfind hterm2
    exact absurd hc hax

theorem inv_start (S : GState) (a : Addr) (f : Device → Device)
    (file' : Option (List (Addr × DeviceJson))) (ctrl' : Ctrl)
    (hact : S.ctrl.pairingActive = false)
    (hact' : ctrl'.pairingActive = true) (hcur' : ctrl'.currentPairingAddr = a)
    (h : SerialInv S) : SerialInv ⟨updateDev (addDev S.mgr a) a f, file', ctrl'⟩ := by
  obtain ⟨hnd, hinv⟩ := h
  have hnd2 : ((updateDev (addDev S.mgr a) a f).map Prod.fst).Nodup := by
    rw [map_fst_updateDev]
    exact nodup_fst_addDev _ _ hnd
  refine ⟨hnd2, fun x d hfind hterm => ?_⟩
  rw [show (⟨updateDev (addDev S.mgr a) a f, file', ctrl'⟩ : GState).mgr
      = updateDev (addDev S.mgr a) a f from rfl] at hfind
  rw [findDev_updateDev] at hfind
  by_cases hax : x = a
  · exact ⟨hact', hcur' ▸ hax⟩
  · rw [if_neg hax, findDev_addDev_other _ _ _ hax] at hfind
    obtain ⟨hc, _⟩ := hinv x d hfind hterm
    rw [hact] at hc
    cases hc

theorem inv_of_eqs (S S' : GState) (hm : S'.mgr = S.mgr)
    (ha : S'.ctrl.pairingActive = S.ctrl.pairingActive)
    (hc : S'.ctrl.currentPairingAddr = S.ctrl.currentPairingAddr)
    (h : SerialInv S) : SerialInv S' :=
  inv_transfer S S' (by rw [hm]) (fun a => by rw [hm]) ha hc h

theorem findDev_removeDev_self (m : Mgr) (a : Addr) :
    findDev (removeDev m a) a = none := by
  induction m with
  | nil => rfl
  | cons hd rest ih =>
    obtain ⟨b, dd⟩ := hd
    by_cases hba : b = a
    · simpa [removeDev, List.filter, hba] using ih
    · have h : removeDev ((b, dd) :: rest) a = (b, dd) :: removeDev rest a := by
        simp [removeDev, List.filter, hba]
      rw [h, findDev, if_neg hba]
      exact ih

theorem findDev_removeDev_some (m : Mgr) (a x : Addr) (d : Device)
    (h : findDev (removeDev m a) x = some d) : findDev m x = some d := by
  induction m with
  | nil => cases h
  | cons hd rest ih =>
    obtain ⟨b, dd⟩ := hd
    by_cases hba : b = a
    · have hx : findDev (removeDev rest a) x = some d := by
        simpa [removeDev, List.filter, hba] using h
      have hbx : ¬ b = x := by
        intro hbx
        rw [hba] at hbx
        rw [← hbx] at hx
        rw [findDev_removeDev_self] at hx
        cases hx
      rw [findDev, if_neg hbx]
      exact ih hx
    · by_cases hbx : b = x
      · have hh : findDev ((b, dd) :: removeDev rest a) x = some d := by
          simpa [removeDev, List.filter, hba] using h
        rw [findDev, if_pos hbx] at hh
        rw [findDev, if_pos hbx]
        exact hh
      · have hh : findDev ((b, dd) :: removeDev rest a) x = some d := by
          simpa [removeDev, List.filter, hba] using h
        rw [findDev, if_neg hbx] at hh
        rw [findDev, if_neg hbx]
        exact ih hh

theorem inv_removeDev (S : GState) (a : Addr)
    (file' : Option (List (Addr × DeviceJson))) (ctrl' : Ctrl)
    (ha : ctrl'.pairingActive = S.ctrl.pairingActive)
    (hc : ctrl'.currentPairingAddr = S.ctrl.currentPairingAddr)
    (h : SerialInv S) : SerialInv ⟨removeDev S.mgr a, file', ctrl'⟩ := by
  obtain ⟨hnd, hinv⟩ := h
  constructor
  · have hsub : List.Sublist ((removeDev S.mgr a).map Prod.fst) (S.mgr.map Prod.fst) :=
      List.Sublist.map Prod.fst (List.filter_sublist S.mgr)
    exact hnd.sublist hsub
  · intro x d hfind hterm
    obtain ⟨h1, h2⟩ := hinv x d (findDev_removeDev_some _ _ _ _ hfind) hterm
    exact ⟨ha.trans h1, hc ▸ h2⟩

/-! ## Helper-effect lemmas for the preservation proofs -/

theorem sendPacketC_eqs (S : GState) (env : Env) (p : Packet) :
    (sendPacketC S env p).1.mgr = S.mgr ∧
    (sendPacketC S env p).1.ctrl.pairingActive = S.ctrl.pairingActive ∧
    (sendPacketC S env p).1.ctrl.currentPairingAddr = S.ctrl.currentPairingAddr ∧
    (sendPacketC S env p).1.ctrl.errorCount = S.ctrl.errorCount := by
  unfold sendPacketC
  split
  · exact ⟨rfl, rfl, rfl, rfl⟩
  · split <;> exact ⟨rfl, rfl, rfl, rfl⟩

theorem sendPairingBroadcast_eqs (S : GState) (env : Env) :
    (sendPairingBroadcast S env).1.mgr = S.mgr ∧
    (sendPairingBroadcast S env).1.ctrl.pairingActive = S.ctrl.pairingActive ∧
    (sendPairingBroadcast S env).1.ctrl.currentPairingAddr = S.ctrl.currentPairingAddr := by
  simp only [sendPairingBroadcast]
  repeat' split
  all_goals
    first
      | exact ⟨rfl, rfl, rfl⟩
      | exact ⟨(sendPacketC_eqs _ _ _).1, (sendPacketC_eqs _ _ _).2.1,
          (sendPacketC_eqs _ _ _).2.2.1⟩
theorem send2ABroadcast_eqs (S : GState) (env : Env) :
    (send2ABroadcast S env).1.mgr = S.mgr ∧
    (send2ABroadcast S env).1.ctrl.pairingActive = S.ctrl.pairingActive ∧
    (send2ABroadcast S env).1.ctrl.currentPairingAddr = S.ctrl.currentPairingAddr := by
  simp only [send2ABroadcast]
  repeat' split
  all_goals
    first
      | exact ⟨rfl, rfl, rfl⟩
      | exact ⟨(sendPacketC_eqs _ _ _).1, (sendPacketC_eqs _ _ _).2.1,
          (sendPacketC_eqs _ _ _).2.2.1⟩
theorem sendPriorityAddressRequest_eqs (S : GState) (env : Env) (t : Addr) :
    (sendPriorityAddressRequest S env t).1.mgr = S.mgr ∧
    (sendPriorityAddressRequest S env t).1.ctrl.pairingActive = S.ctrl.pairingActive ∧
    (sendPriorityAddressRequest S env t).1.ctrl.currentPairingAddr
      = S.ctrl.currentPairingAddr := by
  simp only [sendPriorityAddressRequest]
  repeat' split
  all_goals
    first
      | exact ⟨rfl, rfl, rfl⟩
      | exact ⟨(sendPacketC_eqs _ _ _).1, (sendPacketC_eqs _ _ _).2.1,
          (sendPacketC_eqs _ _ _).2.2.1⟩
theorem sendChallengeToPair_eqs (S : GState) (env : Env) (t : Addr) :
    (sendChallengeToPair S env t).1.mgr = S.mgr ∧
    (sendChallengeToPair S env t).1.ctrl.pairingActive = S.ctrl.pairingActive ∧
    (sendChallengeToPair S env t).1.ctrl.currentPairingAddr = S.ctrl.currentPairingAddr := by
  simp only [sendChallengeToPair]
  repeat' split
  all_goals
    first
      | exact ⟨rfl, rfl, rfl⟩
      | exact ⟨(sendPacketC_eqs _ _ _).1, (sendPacketC_eqs _ _ _).2.1,
          (sendPacketC_eqs _ _ _).2.2.1⟩
theorem sendAskChallenge_eqs (S : GState) (env : Env) (t : Addr) :
    (sendAskChallenge S env t).1.mgr = S.mgr ∧
    (sendAskChallenge S env t).1.ctrl.pairingActive = S.ctrl.pairingActive ∧
    (sendAskChallenge S env t).1.ctrl.currentPairingAddr = S.ctrl.currentPairingAddr := by
  simp only [sendAskChallenge]
  repeat' split
  all_goals
    first
      | exact ⟨rfl, rfl, rfl⟩
      | exact ⟨(sendPacketC_eqs _ _ _).1, (sendPacketC_eqs _ _ _).2.1,
          (sendPacketC_eqs _ _ _).2.2.1⟩
theorem sendChallengeResponse_eqs (S : GState) (env : Env) (t : Addr) :
    (sendChallengeResponse S env t).1.mgr = S.mgr ∧
    (sendChallengeResponse S env t).1.ctrl.pairingActive = S.ctrl.pairingActive ∧
    (sendChallengeResponse S env t).1.ctrl.currentPairingAddr
      = S.ctrl.currentPairingAddr := by
  simp only [sendChallengeResponse]
  repeat' split
  all_goals
    first
      | exact ⟨rfl, rfl, rfl⟩
      | exact ⟨(sendPacketC_eqs _ _ _).1, (sendPacketC_eqs _ _ _).2.1,
          (sendPacketC_eqs _ _ _).2.2.1⟩
theorem requestName_eqs (S : GState) (env : Env) (t : Addr) :
    (requestName S env t).1.mgr = S.mgr ∧
    (requestName S env t).1.ctrl.pairingActive = S.ctrl.pairingActive ∧
    (requestName S env t).1.ctrl.currentPairingAddr = S.ctrl.currentPairingAddr := by
  obtain ⟨h1, h2, h3, _⟩ := sendPacketC_eqs S env ⟨controllerAddr, t, 0x50, []⟩
  exact ⟨h1, h2, h3⟩

theorem requestGeneralInfo1_eqs (S : GState) (env : Env) (t : Addr) :
    (requestGeneralInfo1 S env t).1.mgr = S.mgr ∧
    (requestGeneralInfo1 S env t).1.ctrl.pairingActive = S.ctrl.pairingActive ∧
    (requestGeneralInfo1 S env t).1.ctrl.currentPairingAddr = S.ctrl.currentPairingAddr := by
  obtain ⟨h1, h2, h3, _⟩ := sendPacketC_eqs S env ⟨controllerAddr, t, 0x54, []⟩
  exact ⟨h1, h2, h3⟩

theorem requestGeneralInfo2_eqs (S : GState) (env : Env) (t : Addr) :
    (requestGeneralInfo2 S env t).1.mgr = S.mgr ∧
    (requestGeneralInfo2 S env t).1.ctrl.pairingActive = S.ctrl.pairingActive ∧
    (requestGeneralInfo2 S env t).1.ctrl.currentPairingAddr = S.ctrl.currentPairingAddr := by
  obtain ⟨h1, h2, h3, _⟩ := sendPacketC_eqs S env ⟨controllerAddr, t, 0x56, []⟩
  exact ⟨h1, h2, h3⟩

theorem sendPacketC_mgr (S : GState) (env : Env) (p : Packet) :
    (sendPacketC S env p).1.mgr = S.mgr := (sendPacketC_eqs S env p).1

theorem sendPacketC_act (S : GState) (env : Env) (p : Packet) :
    (sendPacketC S env p).1.ctrl.pairingActive = S.ctrl.pairingActive :=
  (sendPacketC_eqs S env p).2.1

theorem sendPacketC_cur (S : GState) (env : Env) (p : Packet) :
    (sendPacketC S env p).1.ctrl.currentPairingAddr = S.ctrl.currentPairingAddr :=
  (sendPacketC_eqs S env p).2.2.1

theorem mgrStoreChallenge_ctrl (S : GState) (a : Addr) (c : List Nat) (l n : Nat) :
    (mgrStoreChallenge S a c l n).ctrl = S.ctrl := by
  unfold mgrStoreChallenge
  repeat' split
  all_goals rfl

theorem mgrStoreResponse_ctrl (S : GState) (a : Addr) (c : List Nat) (l n : Nat) :
    (mgrStoreResponse S a c l n).ctrl = S.ctrl := by
  unfold mgrStoreResponse
  repeat' split
  all_goals rfl

theorem mgrStoreSystemKey_ctrl (S : GState) (a : Addr) (c : List Nat) (l n : Nat) :
    (mgrStoreSystemKey S a c l n).ctrl = S.ctrl := by
  unfold mgrStoreSystemKey saveToFile
  repeat' split
  all_goals rfl

theorem mgrStoreStackKey_ctrl (S : GState) (a : Addr) (c : List Nat) (l n : Nat) :
    (mgrStoreStackKey S a c l n).ctrl = S.ctrl := by
  unfold mgrStoreStackKey
  repeat' split
  all_goals rfl

theorem mgrUpdateName_ctrl (S : GState) (a : Addr) (nm : String) (n : Nat) :
    (mgrUpdateName S a nm n).ctrl = S.ctrl := by
  unfold mgrUpdateName
  repeat' split
  all_goals rfl

theorem mgrUpdateGeneralInfo1_ctrl (S : GState) (a : Addr) (c : List Nat) (l n : Nat) :
    (mgrUpdateGeneralInfo1 S a c l n).ctrl = S.ctrl := by
  unfold mgrUpdateGeneralInfo1
  repeat' split
  all_goals rfl

theorem mgrUpdateGeneralInfo2_ctrl (S : GState) (a : Addr) (c : List Nat) (l n : Nat) :
    (mgrUpdateGeneralInfo2 S a c l n).ctrl = S.ctrl := by
  unfold mgrUpdateGeneralInfo2
  repeat' split
  all_goals rfl

theorem mgrCompletePairing_ctrl (S : GState) (a : Addr) (n : Nat) :
    (mgrCompletePairing S a n).ctrl = S.ctrl := by
  unfold mgrCompletePairing saveToFile
  repeat' split
  all_goals rfl

theorem mgrFailPairing_ctrl (S : GState) (a : Addr) (n : Nat) :
    (mgrFailPairing S a n).ctrl = S.ctrl := by
  unfold mgrFailPairing
  repeat' split
  all_goals rfl

theorem inv_mgrStoreChallenge (S : GState) (a : Addr) (c : List Nat) (l n : Nat)
    (h : SerialInv S) : SerialInv (mgrStoreChallenge S a c l n) := by
  unfold mgrStoreChallenge
  split
  · exact h
  · split
    · exact h
    · exact inv_update_pres S a _ _ _ (fun d => rfl) rfl rfl h

theorem inv_mgrStoreResponse (S : GState) (a : Addr) (c : List Nat) (l n : Nat)
    (h : SerialInv S) : SerialInv (mgrStoreResponse S a c l n) := by
  unfold mgrStoreResponse
  split
  · exact h
  · split
    · exact h
    · exact inv_update_pres S a _ _ _ (fun d => rfl) rfl rfl h

theorem inv_mgrStoreSystemKey (S : GState) (a : Addr) (c : List Nat) (l n : Nat)
    (h : SerialInv S) : SerialInv (mgrStoreSystemKey S a c l n) := by
  unfold mgrStoreSystemKey saveToFile
  split
  · exact h
  · split
    · exact h
    · exact inv_update_pres S a _ _ _ (fun d => rfl) rfl rfl h

theorem inv_mgrStoreStackKey (S : GState) (a : Addr) (c : List Nat) (l n : Nat)
    (h : SerialInv S) : SerialInv (mgrStoreStackKey S a c l n) := by
  unfold mgrStoreStackKey
  split
  · exact h
  · split
    · exact h
    · exact inv_update_pres S a _ _ _ (fun d => rfl) rfl rfl h

theorem inv_mgrUpdateName (S : GState) (a : Addr) (nm : String) (n : Nat)
    (h : SerialInv S) : SerialInv (mgrUpdateName S a nm n) := by
  unfold mgrUpdateName
  split
  · exact h
  · exact inv_update_pres S a _ _ _ (fun d => rfl) rfl rfl h

theorem inv_mgrUpdateGeneralInfo1 (S : GState) (a : Addr) (c : List Nat) (l n : Nat)
    (h : SerialInv S) : SerialInv (mgrUpdateGeneralInfo1 S a c l n) := by
  unfold mgrUpdateGeneralInfo1
  split
  · exact h
  · split
    · exact h
    · exact inv_update_pres S a _ _ _ (fun d => rfl) rfl rfl h

theorem inv_mgrUpdateGeneralInfo2 (S : GState) (a : Addr) (c : List Nat) (l n : Nat)
    (h : SerialInv S) : SerialInv (mgrUpdateGeneralInfo2 S a c l n) := by
  unfold mgrUpdateGeneralInfo2
  split
  · exact h
  · split
    · exact h
    · exact inv_update_pres S a _ _ _ (fun d => rfl) rfl rfl h

theorem inv_update_current2 (S : GState) (x : Addr) (f : Device → Device)
    (file' : Option (List (Addr × DeviceJson))) (ctrl' : Ctrl)
    (hx : x = S.ctrl.currentPairingAddr)
    (hact' : ctrl'.pairingActive = true)
    (hcur' : ctrl'.currentPairingAddr = S.ctrl.currentPairingAddr)
    (h : SerialInv S) :
    SerialInv ⟨updateDev S.mgr x f, file', ctrl'⟩ := by
  subst hx
  exact inv_update_current S f file' ctrl' hact' hcur' h

theorem sendKeyTransfer_act (S : GState) (env : Env) (t : Addr) :
    (sendKeyTransfer S env t).1.ctrl.pairingActive = S.ctrl.pairingActive := by
  simp only [sendKeyTransfer]
  repeat' split
  all_goals
    simp [sendPacketC_act, mgrStoreStackKey_ctrl, mgrStoreSystemKey_ctrl]

theorem sendKeyTransfer_cur (S : GState) (env : Env) (t : Addr) :
    (sendKeyTransfer S env t).1.ctrl.currentPairingAddr = S.ctrl.currentPairingAddr := by
  simp only [sendKeyTransfer]
  repeat' split
  all_goals
    simp [sendPacketC_cur, mgrStoreStackKey_ctrl, mgrStoreSystemKey_ctrl]

theorem inv_sendKeyTransfer (S : GState) (env : Env) (t : Addr)
    (hact : S.ctrl.pairingActive = true)
    (ht : t = S.ctrl.currentPairingAddr)
    (h : SerialInv S) : SerialInv (sendKeyTransfer S env t).1 := by
  simp only [sendKeyTransfer]
  repeat' split
  all_goals
    first
      | exact inv_of_eqs _ _ (sendPacketC_mgr _ _ _) (sendPacketC_act _ _ _)
          (sendPacketC_cur _ _ _)
          (inv_mgrStoreStackKey _ _ _ _ _ (inv_mgrStoreSystemKey _ _ _ _ _
            (inv_of_eqs S _ rfl rfl rfl h)))
      | (refine inv_update_current2 ((sendPacketC _ _ _).1) t _ _ _ ?_ ?_ ?_ ?_ <;>
          first
            | exact inv_of_eqs _ _ (sendPacketC_mgr _ _ _) (sendPacketC_act _ _ _)
                (sendPacketC_cur _ _ _)
                (inv_mgrStoreStackKey _ _ _ _ _ (inv_mgrStoreSystemKey _ _ _ _ _
                  (inv_of_eqs S _ rfl rfl rfl h)))
            | simp [sendPacketC_cur, sendPacketC_act, mgrStoreStackKey_ctrl,
                mgrStoreSystemKey_ctrl, ht, hact])

theorem inv_update_current_terminal2 (S : GState) (x : Addr) (f : Device → Device)
    (file' : Option (List (Addr × DeviceJson))) (ctrl' : Ctrl)
    (hx : x = S.ctrl.currentPairingAddr)
    (hterm : ∀ d, (f d).pairingState.isTerminal = true)
    (h : SerialInv S) :
    SerialInv ⟨updateDev S.mgr x f, file', ctrl'⟩ := by
  subst hx
  exact inv_update_current_terminal S f file' ctrl' hterm h

theorem inv_saveToFile (S : GState) (h : SerialInv S) : SerialInv (saveToFile S) :=
  inv_of_eqs S _ rfl rfl rfl h

theorem inv_startPairingC (S : GState) (a : Addr) (env : Env)
    (h : SerialInv S) : SerialInv (startPairingC S a env).1 := by
  simp only [startPairingC]
  split
  · exact h
  · split
    · exact h
    · next h1 _ =>
      simp only [mgrStartPairing]
      split
      · next heq =>
        rw [findDev_updateDev] at heq
        rw [if_pos rfl, findDev_addDev_self] at heq
        cases heq
      · next dev heq =>
        have hact : S.ctrl.pairingActive = false := by
          simpa using h1
        exact inv_start S a _ _ _ hact rfl rfl h

theorem inv_cancelPairingC (S : GState) (h : SerialInv S) :
    SerialInv (cancelPairingC S) := by
  simp only [cancelPairingC]
  split
  · exact h
  · split
    · next heq =>
      obtain ⟨hnd, hinv⟩ := h
      refine ⟨hnd, fun x d hf ht => ?_⟩
      have hf' : findDev S.mgr x = some d := hf
      obtain ⟨_, hcur⟩ := hinv x d hf' ht
      rw [hcur, heq] at hf'
      cases hf'
    · next dev heq =>
      exact inv_update_current_terminal S _ _ _ (fun d => rfl) h

theorem inv_handleErrorStatus (S : GState) (status : Nat) (h : SerialInv S) :
    SerialInv (handleErrorStatus S status) := by
  simp only [handleErrorStatus]
  repeat' split
  all_goals
    first
      | exact h
      | exact inv_of_eqs S _ rfl rfl rfl h
      | exact inv_cancelPairingC S h
      | exact inv_of_eqs _ _ rfl rfl rfl
          (inv_cancelPairingC _ (inv_of_eqs S _ rfl rfl rfl h))

theorem processRetryC_act (S : GState) (env : Env) :
    (processRetryC S env).1.ctrl.pairingActive = S.ctrl.pairingActive := by
  simp only [processRetryC]
  split
  · rfl
  · next op _ =>
    split
    · rfl
    · have hact2 : (runRetryOp S env op).1.ctrl.pairingActive = S.ctrl.pairingActive := by
        cases op
        · exact (sendAskChallenge_eqs _ _ _).2.1
        · exact sendKeyTransfer_act _ _ _
      repeat' split <;> simp [clearRetryC, hact2]

theorem processRetryC_cur (S : GState) (env : Env) :
    (processRetryC S env).1.ctrl.currentPairingAddr = S.ctrl.currentPairingAddr := by
  simp only [processRetryC]
  split
  · rfl
  · next op _ =>
    split
    · rfl
    · have hcur2 : (runRetryOp S env op).1.ctrl.currentPairingAddr
          = S.ctrl.currentPairingAddr := by
        cases op
        · exact (sendAskChallenge_eqs _ _ _).2.2
        · exact sendKeyTransfer_cur _ _ _
      repeat' split <;> simp [clearRetryC, hcur2]

theorem inv_processRetryC (S : GState) (env : Env)
    (hact : S.ctrl.pairingActive = true)
    (h : SerialInv S) : SerialInv (processRetryC S env).1 := by
  simp only [processRetryC]
  split
  · exact h
  · next op _ =>
    split
    · exact h
    · have h1 : SerialInv (runRetryOp S env op).1 := by
        cases op
        · exact inv_of_eqs _ _ (sendAskChallenge_eqs _ _ _).1
            (sendAskChallenge_eqs _ _ _).2.1 (sendAskChallenge_eqs _ _ _).2.2 h
        · exact inv_sendKeyTransfer S env _ hact rfl h
      repeat' split
      all_goals exact inv_of_eqs _ _ rfl rfl rfl h1

theorem inv_handleChallenge2W (S : GState) (env : Env) (pkt : Packet)
    (h : SerialInv S) : SerialInv (handleChallenge2W S env pkt).1 := by
  simp only [handleChallenge2W]
  repeat' split
  all_goals
    first
      | exact h
      | exact inv_mgrStoreChallenge S _ _ _ _ h

theorem handleConfirmation2W_fst (S : GState) (pkt : Packet) :
    (handleConfirmation2W S pkt).1 = S := by
  simp only [handleConfirmation2W]
  repeat' split
  all_goals rfl

theorem inv_cmdOnOff (S : GState) (a : Addr) (mp : Nat) (h : SerialInv S) :
    SerialInv (cmdOnOff S a mp).1 := by
  simp only [cmdOnOff]
  repeat' split
  all_goals
    first
      | exact h
      | exact inv_update_pres S a _ _ _ (fun d => rfl) rfl rfl h

theorem inv_cmdAuth (S : GState) (a : Addr) (h : SerialInv S) :
    SerialInv (cmdAuth S a).1 := by
  simp only [cmdAuth]
  repeat' split
  all_goals
    first
      | exact h
      | exact inv_update_pres S a _ _ _ (fun d => rfl) rfl rfl h

theorem inv_cmdDel (S : GState) (a : Addr) (h : SerialInv S) :
    SerialInv (cmdDel S a) := by
  simp only [cmdDel]
  split
  · exact h
  · exact inv_removeDev S a _ _ rfl rfl h

theorem inv_failPairing_off (S : GState) (x : Addr) (now : Nat)
    (hx : x = S.ctrl.currentPairingAddr)
    (h : SerialInv S) :
    SerialInv { mgrFailPairing S x now with ctrl.pairingActive := false } := by
  simp only [mgrFailPairing]
  split
  · next heq =>
    obtain ⟨hnd, hinv⟩ := h
    refine ⟨hnd, fun b d hf ht => ?_⟩
    have hf' : findDev S.mgr b = some d := hf
    obtain ⟨hac, hcur⟩ := hinv b d hf' ht
    rw [hcur, ← hx, heq] at hf'
    cases hf'
  · next dev heq =>
    exact inv_update_current_terminal2 S x _ _ _ hx (fun d => rfl) h

theorem inv_completePairing_off (S : GState) (x : Addr) (now : Nat)
    (hx : x = S.ctrl.currentPairingAddr)
    (h : SerialInv S) :
    SerialInv { mgrCompletePairing S x now with ctrl.pairingActive := false } := by
  simp only [mgrCompletePairing, saveToFile]
  split
  · next heq =>
    obtain ⟨hnd, hinv⟩ := h
    refine ⟨hnd, fun b d hf ht => ?_⟩
    have hf' : findDev S.mgr b = some d := hf
    obtain ⟨hac, hcur⟩ := hinv b d hf' ht
    rw [hcur, ← hx, heq] at hf'
    cases hf'
  · next dev heq =>
    exact inv_update_current_terminal2 S x _ _ _ hx (fun d => rfl) h

theorem inv_processC (S : GState) (env : Env) (h : SerialInv S) :
    SerialInv (processC S env).1 := by
  simp only [processC]
  split
  · exact h
  · next h1 =>
    have hact : S.ctrl.pairingActive = true := by simpa using h1
    have hpr : SerialInv (processRetryC S env).1 := inv_processRetryC S env hact h
    have hpa : (processRetryC S env).1.ctrl.pairingActive = true :=
      (processRetryC_act S env).trans hact
    split
    · exact inv_cancelPairingC _ hpr
    · next device heq =>
      split
      · exact inv_failPairing_off _ _ _ rfl hpr
      · repeat' split
        all_goals
          first
            | exact hpr
            | exact inv_of_eqs _ _ rfl rfl rfl hpr
            | exact inv_cancelPairingC _ hpr
            | exact inv_of_eqs _ _ (sendPairingBroadcast_eqs _ _).1
                (sendPairingBroadcast_eqs _ _).2.1 (sendPairingBroadcast_eqs _ _).2.2 hpr
            | exact inv_of_eqs _ _ (send2ABroadcast_eqs _ _).1
                (send2ABroadcast_eqs _ _).2.1 (send2ABroadcast_eqs _ _).2.2 hpr
            | exact inv_update_current2 _ _ _ _ _ rfl hpa rfl hpr
            | exact inv_cancelPairingC _ (inv_of_eqs _ _
                (sendPriorityAddressRequest_eqs _ _ _).1
                (sendPriorityAddressRequest_eqs _ _ _).2.1
                (sendPriorityAddressRequest_eqs _ _ _).2.2 hpr)
            | exact inv_update_current2 _ _ _ _ _
                (sendPriorityAddressRequest_eqs _ _ _).2.2.symm
                ((sendPriorityAddressRequest_eqs _ _ _).2.1.trans hpa) rfl
                (inv_of_eqs _ _ (sendPriorityAddressRequest_eqs _ _ _).1
                  (sendPriorityAddressRequest_eqs _ _ _).2.1
                  (sendPriorityAddressRequest_eqs _ _ _).2.2 hpr)
            | exact inv_update_current_terminal2 _ _ _ _ _
                (requestName_eqs _ _ _).2.2.symm (fun d => rfl)
                (inv_of_eqs _ _ (requestName_eqs _ _ _).1
                  (requestName_eqs _ _ _).2.1 (requestName_eqs _ _ _).2.2 hpr)

theorem inv_update_terminal (S : GState) (x : Addr) (f : Device → Device)
    (file' : Option (List (Addr × DeviceJson))) (ctrl' : Ctrl)
    (hterm : ∀ d, (f d).pairingState.isTerminal = true)
    (hact : ctrl'.pairingActive = S.ctrl.pairingActive)
    (hcur : ctrl'.currentPairingAddr = S.ctrl.currentPairingAddr)
    (h : SerialInv S) : SerialInv ⟨updateDev S.mgr x f, file', ctrl'⟩ := by
  obtain ⟨hnd, hinv⟩ := h
  refine ⟨by rw [show (⟨updateDev S.mgr x f, file', ctrl'⟩ : GState).mgr
      = updateDev S.mgr x f from rfl, map_fst_updateDev]; exact hnd,
    fun b d hfind hterm2 => ?_⟩
  rw [show (⟨updateDev S.mgr x f, file', ctrl'⟩ : GState).mgr
      = updateDev S.mgr x f from rfl, findDev_updateDev] at hfind
  by_cases hbx : b = x
  · rw [if_pos hbx] at hfind
    cases hfd : findDev S.mgr x with
    | none => rw [hfd] at hfind; cases hfind
    | some d0 =>
      rw [hfd] at hfind
      injection hfind with hd
      rw [← hd, hterm d0] at hterm2
      cases hterm2
  · rw [if_neg hbx] at hfind
    obtain ⟨h1, h2⟩ := hinv b d hfind hterm2
    exact ⟨hact.trans h1, hcur ▸ h2⟩

theorem inv_mgrCompletePairing (S : GState) (x : Addr) (now : Nat)
    (h : SerialInv S) : SerialInv (mgrCompletePairing S x now) := by
  simp only [mgrCompletePairing, saveToFile]
  split
  · exact h
  · exact inv_update_terminal S x _ _ _ (fun d => rfl) rfl rfl h

theorem inv_mgrFailPairing (S : GState) (x : Addr) (now : Nat)
    (h : SerialInv S) : SerialInv (mgrFailPairing S x now) := by
  simp only [mgrFailPairing]
  split
  · exact h
  · exact inv_update_terminal S x _ _ _ (fun d => rfl) rfl rfl h

set_option maxHeartbeats 2000000 in
theorem inv_hppDispatchTail2 (S2 : GState) (env : Env) (pkt : Packet) (device : Device)
    (hact : S2.ctrl.pairingActive = true)
    (hS2 : SerialInv S2) : SerialInv (hppDispatchTail2 S2 env pkt device).1 := by
  simp only [hppDispatchTail2]
  split
  · split
    · exact inv_update_current2 _ _ _ _ _ rfl hact rfl hS2
    · exact hS2
  · split
    · split
      · exact inv_update_current_terminal2 _ _ _ _ _
          (by simp [mgrCompletePairing_ctrl,
            (sendPriorityAddressRequest_eqs S2 env _).2.2])
          (fun d => rfl)
          (inv_mgrCompletePairing _ _ _
            (inv_update_pres _ _ _ _ _ (fun d => rfl) rfl rfl
              (inv_of_eqs _ _ (sendPriorityAddressRequest_eqs _ _ _).1
                (sendPriorityAddressRequest_eqs _ _ _).2.1
                (sendPriorityAddressRequest_eqs _ _ _).2.2 hS2)))
      · exact inv_update_current_terminal2 _ _ _ _ _
          (by simp [mgrCompletePairing_ctrl,
            (sendPriorityAddressRequest_eqs S2 env _).2.2])
          (fun d => rfl)
          (inv_mgrCompletePairing _ _ _
            (inv_of_eqs _ _ (sendPriorityAddressRequest_eqs _ _ _).1
              (sendPriorityAddressRequest_eqs _ _ _).2.1
              (sendPriorityAddressRequest_eqs _ _ _).2.2 hS2))
    · split
      · split
        · exact inv_of_eqs _ _ (requestGeneralInfo1_eqs _ _ _).1
            (requestGeneralInfo1_eqs _ _ _).2.1
            (requestGeneralInfo1_eqs _ _ _).2.2
            (inv_mgrUpdateName _ _ _ _ hS2)
        · exact hS2
      · split
        · split
          · exact inv_of_eqs _ _ (requestGeneralInfo2_eqs _ _ _).1
              (requestGeneralInfo2_eqs _ _ _).2.1
              (requestGeneralInfo2_eqs _ _ _).2.2
              (inv_mgrUpdateGeneralInfo1 _ _ _ _ _ hS2)
          · exact hS2
        · split
          · split
            · split
              · exact inv_completePairing_off _ _ _
                  (by simp [mgrUpdateGeneralInfo2_ctrl])
                  (inv_update_pres _ _ _ _ _ (fun d => rfl) rfl rfl
                    (inv_mgrUpdateGeneralInfo2 _ _ _ _ _ hS2))
              · exact inv_completePairing_off _ _ _
                  (by simp [mgrUpdateGeneralInfo2_ctrl])
                  (inv_mgrUpdateGeneralInfo2 _ _ _ _ _ hS2)
            · exact hS2
          · exact hS2

set_option maxHeartbeats 2000000 in
theorem inv_hppDispatchTail (S2 : GState) (env : Env) (pkt : Packet) (device : Device)
    (hact : S2.ctrl.pairingActive = true)
    (hS2 : SerialInv S2) : SerialInv (hppDispatchTail S2 env pkt device).1 := by
  simp only [hppDispatchTail]
  split
  · split
    · exact inv_update_current2 _ _ _ _ _ rfl hact rfl hS2
    · exact hS2
  · split
    · split
      · split
        · split
          · exact inv_update_current2 _ _ _ _ _
              (by simp [sendKeyTransfer_cur])
              (by simp [sendKeyTransfer_act, hact])
              rfl
              (inv_sendKeyTransfer _ env _ (by simp [hact]) (by simp)
                (inv_of_eqs S2 _ (by rfl) (by rfl) (by rfl) hS2))
          · exact inv_of_eqs _ _ (by rfl) (by rfl) (by rfl)
              (inv_sendKeyTransfer _ env _ (by simp [hact]) (by simp)
                (inv_of_eqs S2 _ (by rfl) (by rfl) (by rfl) hS2))
        · exact hS2
      · split
        · split
          · split
            · exact inv_of_eqs _ _ (sendChallengeResponse_eqs _ _ _).1
                (sendChallengeResponse_eqs _ _ _).2.1
                (sendChallengeResponse_eqs _ _ _).2.2
                (inv_of_eqs S2 _ rfl rfl rfl hS2)
            · exact inv_of_eqs _ _ (sendChallengeResponse_eqs _ _ _).1
                (sendChallengeResponse_eqs _ _ _).2.1
                (sendChallengeResponse_eqs _ _ _).2.2
                (inv_of_eqs S2 _ rfl rfl rfl hS2)
          · exact hS2
        · exact hS2
    · exact inv_hppDispatchTail2 S2 env pkt device hact hS2

set_option maxHeartbeats 2000000 in
theorem inv_hppDispatch (S2 : GState) (env : Env) (pkt : Packet) (device : Device)
    (hact : S2.ctrl.pairingActive = true)
    (hS2 : SerialInv S2) : SerialInv (hppDispatch S2 env pkt device).1 := by
  simp only [hppDispatch]
  split
  · split
    · split
      · exact inv_of_eqs _ _ rfl rfl rfl
          (inv_of_eqs _ _ (sendAskChallenge_eqs _ _ _).1
            (sendAskChallenge_eqs _ _ _).2.1 (sendAskChallenge_eqs _ _ _).2.2
            (inv_update_current2 S2 _ _ _ _ rfl hact rfl hS2))
      · exact inv_of_eqs _ _ rfl rfl rfl
          (inv_of_eqs _ _ (sendAskChallenge_eqs _ _ _).1
            (sendAskChallenge_eqs _ _ _).2.1 (sendAskChallenge_eqs _ _ _).2.2
            (inv_update_current2 S2 _ _ _ _ rfl hact rfl hS2))
    · exact hS2
  · split
    · split
      · exact inv_update_current2 _ _ _ _ _ rfl hact rfl hS2
      · exact hS2
    · split
      · split
        · split
          · exact inv_update_current2 _ _ _ _ _
              (sendChallengeToPair_eqs _ _ _).2.2.symm
              ((sendChallengeToPair_eqs _ _ _).2.1.trans hact) rfl
              (inv_of_eqs _ _ (sendChallengeToPair_eqs _ _ _).1
                (sendChallengeToPair_eqs _ _ _).2.1
                (sendChallengeToPair_eqs _ _ _).2.2 hS2)
          · exact inv_cancelPairingC _ (inv_of_eqs _ _
              (sendChallengeToPair_eqs _ _ _).1
              (sendChallengeToPair_eqs _ _ _).2.1
              (sendChallengeToPair_eqs _ _ _).2.2 hS2)
        · exact hS2
      · split
        · exact inv_handleErrorStatus S2 _ hS2
        · split
          · split
            · split
              · exact inv_update_current2 _ _ _ _ _ rfl hact rfl hS2
              · exact inv_cancelPairingC _ hS2
            · exact hS2
          · exact inv_hppDispatchTail S2 env pkt device hact hS2

theorem inv_handlePairingPacket (S : GState) (env : Env) (pkt : Packet)
    (h : SerialInv S) : SerialInv (handlePairingPacket S env pkt).1 := by
  simp only [handlePairingPacket]
  split
  · next Sf heq =>
    have hSf : SerialInv Sf := by
      split at heq
      · injection heq with h1 h2
        exact h1 ▸ inv_startPairingC _ _ _ (inv_of_eqs S _ rfl rfl rfl h)
      · injection heq with h1 h2
        cases h2
    exact hSf
  · next S2 heq =>
    have hS2 : SerialInv S2 := by
      split at heq
      · injection heq with h1 h2
        exact h1 ▸ inv_startPairingC _ _ _ (inv_of_eqs S _ rfl rfl rfl h)
      · injection heq with h1 h2
        exact h1 ▸ h
    clear heq h
    split
    · exact hS2
    · next h1 =>
      have hact : S2.ctrl.pairingActive = true := by simpa using h1
      split
      · exact hS2
      · split
        · exact hS2
        · next device heqd =>
          exact inv_hppDispatch S2 env pkt device hact hS2

theorem inv_applyOp (S : GState) (op : Op) (hnl : op.loadsFile = false)
    (h : SerialInv S) : SerialInv (applyOp S op) := by
  cases op with
  | setKey k => exact inv_of_eqs S _ rfl rfl rfl h
  | startPair a env => exact inv_startPairingC S a env h
  | cancelPair => exact inv_cancelPairingC S h
  | enableAutoPair => exact inv_of_eqs S _ rfl rfl rfl h
  | disableAutoPair => exact inv_of_eqs S _ rfl rfl rfl h
  | tick env => exact inv_processC S env h
  | rxPairing env pkt => exact inv_handlePairingPacket S env pkt h
  | rxChallenge env pkt => exact inv_handleChallenge2W S env pkt h
  | rxConfirm pkt =>
    show SerialInv (handleConfirmation2W S pkt).1
    rw [handleConfirmation2W_fst]
    exact h
  | deviceOn a => exact inv_cmdOnOff S a _ h
  | deviceOff a => exact inv_cmdOnOff S a _ h
  | auth a => exact inv_cmdAuth S a h
  | save => exact inv_saveToFile S h
  | del a => exact inv_cmdDel S a h
  | reload => exact Bool.noConfusion hnl
  | restart => exact Bool.noConfusion hnl

theorem inv_stepNL (S S' : GState) (hst : StepNL S S') (h : SerialInv S) :
    SerialInv S' := by
  obtain ⟨op, hnl, rfl⟩ := hst
  exact inv_applyOp S op hnl h

theorem findDev_of_mem (m : Mgr) (a : Addr) (d : Device)
    (hnd : (m.map Prod.fst).Nodup) (hmem : (a, d) ∈ m) : findDev m a = some d := by
  induction m with
  | nil => cases hmem
  | cons hd rest ih =>
    obtain ⟨b, e⟩ := hd
    rw [List.map_cons, List.nodup_cons] at hnd
    cases hmem with
    | head =>
      show findDev ((a, d) :: rest) a = some d
      simp [findDev]
    | tail _ hmem2 =>
      show findDev ((b, e) :: rest) a = some d
      by_cases hba : b = a
      · exfalso
        subst hba
        exact hnd.1 (List.mem_map.mpr ⟨(b, d), hmem2, rfl⟩)
      · simp only [findDev, if_neg hba]
        exact ih hnd.2 hmem2

theorem serialInv_count (S : GState) (h : SerialInv S) : countNonTerminal S ≤ 1 := by
  obtain ⟨hnd, hinv⟩ := h
  unfold countNonTerminal
  have hsub : List.Sublist
      ((S.mgr.filter (fun p => p.2.pairingState.isTerminal = false)).map Prod.fst)
      (S.mgr.map Prod.fst) :=
    List.Sublist.map Prod.fst (List.filter_sublist S.mgr)
  have hnd2 : ((S.mgr.filter (fun p => p.2.pairingState.isTerminal = false)).map
      Prod.fst).Nodup := hnd.sublist hsub
  have hall : ∀ p ∈ S.mgr.filter (fun p => p.2.pairingState.isTerminal = false),
      p.1 = S.ctrl.currentPairingAddr := by
    intro p hp
    rw [List.mem_filter] at hp
    obtain ⟨hpm, hpnt⟩ := hp
    obtain ⟨q1, q2⟩ := p
    exact (hinv q1 q2 (findDev_of_mem S.mgr q1 q2 hnd hpm) (by simpa using hpnt)).2
  cases hl : S.mgr.filter (fun p => p.2.pairingState.isTerminal = false) with
  | nil => simp
  | cons x rest =>
    cases rest with
    | nil => simp
    | cons y rest2 =>
      exfalso
      rw [hl] at hnd2 hall
      rw [List.map_cons, List.map_cons, List.nodup_cons] at hnd2
      have hx : x.1 = S.ctrl.currentPairingAddr := hall x (by simp)
      have hy : y.1 = S.ctrl.currentPairingAddr := hall y (by simp)
      exact hnd2.1 (by rw [hx, ← hy]; simp)

/-- C5 (corrected): within a single run that never reads the durable file
back (`reload2W` and process restarts excluded), pairing is strictly
serial — every state reachable from boot has at most one device in a
non-terminal pairing state.  The original claim, which included
file-loading operations, is refuted by `c5_counterexample`. -/
theorem c5_serial_pairing_amended (S : GState)
    (hreach : Relation.ReflTransGen StepNL initG S) :
    countNonTerminal S ≤ 1 := by
  have hinv : SerialInv S := by
    induction hreach with
    | refl => exact ⟨List.nodup_nil, fun a d hf => nomatch hf⟩
    | tail hst hstep ih => exact inv_stepNL _ _ hstep ih
  exact serialInv_count S hinv

/-- C5 witness: a concrete two-step no-reload run (configure the system key,
then start pairing a device) satisfies the amended bound. -/
theorem c5_serial_pairing_amended_witness :
    Relation.ReflTransGen StepNL initG
      (applyOp (applyOp initG (Op.setKey (List.range 16)))
        (Op.startPair ⟨1, 2, 3⟩ ⟨0, true, false, []⟩)) ∧
    countNonTerminal
      (applyOp (applyOp initG (Op.setKey (List.range 16)))
        (Op.startPair ⟨1, 2, 3⟩ ⟨0, true, false, []⟩)) ≤ 1 :=
  ⟨Relation.ReflTransGen.tail
      (Relation.ReflTransGen.single ⟨Op.setKey (List.range 16), rfl, rfl⟩)
      ⟨Op.startPair ⟨1, 2, 3⟩ ⟨0, true, false, []⟩, rfl, rfl⟩,
   c5_serial_pairing_amended _
     (Relation.ReflTransGen.tail
       (Relation.ReflTransGen.single ⟨Op.setKey (List.range 16), rfl, rfl⟩)
       ⟨Op.startPair ⟨1, 2, 3⟩ ⟨0, true, false, []⟩, rfl, rfl⟩)⟩

/-- The per-device half of the pending-challenge invariant: a raised flag
comes with a six-byte stored challenge. -/
def PCd (d : Device) : Prop := d.hasPendingChallenge = true → d.lastChallenge.length = 6

/-- Registry-wide pending-challenge invariant. -/
def PCInv (S : GState) : Prop := ∀ p ∈ S.mgr, PCd p.2

theorem pc_of_eq (S' S : GState) (hm : S'.mgr = S.mgr) (h : PCInv S) : PCInv S' :=
  fun p hp => h p (hm ▸ hp)

theorem pc_updateDev (m : Mgr) (a : Addr) (f : Device → Device)
    (hf : ∀ d, PCd d → PCd (f d)) (h : ∀ p ∈ m, PCd p.2) :
    ∀ p ∈ updateDev m a f, PCd p.2 := by
  induction m with
  | nil => intro p hp; cases hp
  | cons hd rest ih =>
    obtain ⟨b, e⟩ := hd
    intro p hp
    by_cases hba : b = a
    · rw [updateDev, if_pos hba] at hp
      cases hp with
      | head => exact hf e (h (b, e) (by simp))
      | tail _ hmem => exact h p (List.mem_cons_of_mem _ hmem)
    · rw [updateDev, if_neg hba] at hp
      cases hp with
      | head => exact h (b, e) (by simp)
      | tail _ hmem =>
        exact ih (fun q hq => h q (List.mem_cons_of_mem _ hq)) p hmem

theorem pc_addDev (m : Mgr) (a : Addr) (h : ∀ p ∈ m, PCd p.2) :
    ∀ p ∈ addDev m a, PCd p.2 := by
  unfold addDev
  split
  · exact h
  · intro p hp
    rcases List.mem_append.mp hp with hl | hr
    · exact h p hl
    · rw [List.mem_singleton] at hr
      subst hr
      exact fun hfl => Bool.noConfusion hfl

theorem pc_removeDev (m : Mgr) (a : Addr) (h : ∀ p ∈ m, PCd p.2) :
    ∀ p ∈ removeDev m a, PCd p.2 :=
  fun p hp => h p (List.mem_of_mem_filter hp)

theorem pc_insertDev (m : Mgr) (a : Addr) (d : Device) (hd : PCd d)
    (h : ∀ p ∈ m, PCd p.2) : ∀ p ∈ insertDev m a d, PCd p.2 := by
  unfold insertDev
  split
  · exact pc_updateDev m a _ (fun _ _ => hd) h
  · intro p hp
    rcases List.mem_append.mp hp with hl | hr
    · exact h p hl
    · rw [List.mem_singleton] at hr
      subst hr
      exact hd

theorem pc_fromJsonD (a : Addr) (j : DeviceJson) : PCd (fromJsonD a j) :=
  fun hfl => Bool.noConfusion hfl

theorem pc_foldl_insert (l : List (Addr × DeviceJson)) :
    ∀ m0 : Mgr, (∀ p ∈ m0, PCd p.2) →
    ∀ p ∈ l.foldl (fun m q => insertDev m q.1 (fromJsonD q.1 q.2)) m0, PCd p.2 := by
  induction l with
  | nil => intro m0 h; exact h
  | cons q rest ih =>
    intro m0 h
    exact ih _ (pc_insertDev m0 q.1 _ (pc_fromJsonD q.1 q.2) h)

theorem pc_loadFromFile (S : GState) (h : PCInv S) : PCInv (loadFromFile S) := by
  unfold loadFromFile
  split
  · exact h
  · exact pc_foldl_insert _ S.mgr h

theorem pc_saveToFile (S : GState) (h : PCInv S) : PCInv (saveToFile S) := h

theorem pc_mgrStartPairing (S : GState) (a : Addr) (now : Nat) (h : PCInv S) :
    PCInv (mgrStartPairing S a now) :=
  pc_updateDev _ _ _ (fun d hd => hd) (pc_addDev S.mgr a h)

theorem pc_mgrCompletePairing (S : GState) (a : Addr) (now : Nat) (h : PCInv S) :
    PCInv (mgrCompletePairing S a now) := by
  simp only [mgrCompletePairing, saveToFile]
  split
  · exact h
  · exact pc_updateDev _ _ _ (fun d hd => hd) h

theorem pc_mgrFailPairing (S : GState) (a : Addr) (now : Nat) (h : PCInv S) :
    PCInv (mgrFailPairing S a now) := by
  simp only [mgrFailPairing]
  split
  · exact h
  · exact pc_updateDev _ _ _ (fun d hd => hd) h

theorem pc_mgrStoreChallenge (S : GState) (a : Addr) (c : List Nat) (l n : Nat)
    (h : PCInv S) : PCInv (mgrStoreChallenge S a c l n) := by
  simp only [mgrStoreChallenge]
  split
  · exact h
  · split
    · exact h
    · exact pc_updateDev _ _ _ (fun d _ => fun _ => by simp [touchD]) h

theorem pc_mgrStoreResponse (S : GState) (a : Addr) (c : List Nat) (l n : Nat)
    (h : PCInv S) : PCInv (mgrStoreResponse S a c l n) := by
  simp only [mgrStoreResponse]
  split
  · exact h
  · split
    · exact h
    · exact pc_updateDev _ _ _ (fun d _ => fun hfl => Bool.noConfusion hfl) h

theorem pc_mgrStoreSystemKey (S : GState) (a : Addr) (c : List Nat) (l n : Nat)
    (h : PCInv S) : PCInv (mgrStoreSystemKey S a c l n) := by
  simp only [mgrStoreSystemKey, saveToFile]
  split
  · exact h
  · split
    · exact h
    · exact pc_updateDev _ _ _ (fun d hd => hd) h

theorem pc_mgrStoreStackKey (S : GState) (a : Addr) (c : List Nat) (l n : Nat)
    (h : PCInv S) : PCInv (mgrStoreStackKey S a c l n) := by
  simp only [mgrStoreStackKey]
  split
  · exact h
  · split
    · exact h
    · exact pc_updateDev _ _ _ (fun d hd => hd) h

theorem pc_mgrUpdateName (S : GState) (a : Addr) (nm : String) (n : Nat)
    (h : PCInv S) : PCInv (mgrUpdateName S a nm n) := by
  simp only [mgrUpdateName]
  split
  · exact h
  · exact pc_updateDev _ _ _ (fun d hd => hd) h

theorem pc_mgrUpdateGeneralInfo1 (S : GState) (a : Addr) (c : List Nat) (l n : Nat)
    (h : PCInv S) : PCInv (mgrUpdateGeneralInfo1 S a c l n) := by
  simp only [mgrUpdateGeneralInfo1]
  split
  · exact h
  · split
    · exact h
    · exact pc_updateDev _ _ _ (fun d hd => hd) h

theorem pc_mgrUpdateGeneralInfo2 (S : GState) (a : Addr) (c : List Nat) (l n : Nat)
    (h : PCInv S) : PCInv (mgrUpdateGeneralInfo2 S a c l n) := by
  simp only [mgrUpdateGeneralInfo2]
  split
  · exact h
  · split
    · exact h
    · exact pc_updateDev _ _ _ (fun d hd => hd) h

theorem pc_sendKeyTransfer (S : GState) (env : Env) (t : Addr)
    (h : PCInv S) : PCInv (sendKeyTransfer S env t).1 := by
  simp only [sendKeyTransfer]
  repeat' split
  all_goals
    first
      | exact pc_updateDev _ _ _ (fun d hd => hd)
          (pc_of_eq _ _ (sendPacketC_eqs _ _ _).1
            (pc_mgrStoreStackKey _ _ _ _ _ (pc_mgrStoreSystemKey _ _ _ _ _
              (pc_of_eq _ _ (by rfl) h))))
      | exact pc_of_eq _ _ (sendPacketC_eqs _ _ _).1
          (pc_mgrStoreStackKey _ _ _ _ _ (pc_mgrStoreSystemKey _ _ _ _ _
            (pc_of_eq _ _ (by rfl) h)))

theorem pc_startPairingC (S : GState) (a : Addr) (env : Env)
    (h : PCInv S) : PCInv (startPairingC S a env).1 := by
  simp only [startPairingC]
  split
  · exact h
  · split
    · exact h
    · simp only [mgrStartPairing]
      split
      · exact pc_updateDev _ _ _ (fun d hd => hd) (pc_addDev _ _ h)
      · exact pc_updateDev _ _ _ (fun d hd => hd) (pc_addDev _ _ h)

theorem pc_cancelPairingC (S : GState) (h : PCInv S) :
    PCInv (cancelPairingC S) := by
  simp only [cancelPairingC]
  split
  · exact h
  · split
    · exact h
    · exact pc_updateDev _ _ _ (fun d hd => hd) h

theorem pc_handleErrorStatus (S : GState) (status : Nat) (h : PCInv S) :
    PCInv (handleErrorStatus S status) := by
  simp only [handleErrorStatus]
  repeat' split
  all_goals
    first
      | exact h
      | exact pc_cancelPairingC _ h
      | exact pc_cancelPairingC _ (pc_of_eq _ _ rfl h)

theorem pc_processRetryC (S : GState) (env : Env) (h : PCInv S) :
    PCInv (processRetryC S env).1 := by
  simp only [processRetryC]
  split
  · exact h
  · next op _ =>
    split
    · exact h
    · have h1 : PCInv (runRetryOp S env op).1 := by
        cases op
        · exact pc_of_eq _ _ (sendAskChallenge_eqs _ _ _).1 h
        · exact pc_sendKeyTransfer _ _ _ h
      repeat' split
      all_goals exact pc_of_eq _ _ rfl h1

theorem pc_processC (S : GState) (env : Env) (h : PCInv S) :
    PCInv (processC S env).1 := by
  simp only [processC]
  split
  · exact h
  · have hpr : PCInv (processRetryC S env).1 := pc_processRetryC S env h
    split
    · exact pc_cancelPairingC _ hpr
    · split
      · exact pc_mgrFailPairing _ _ _ hpr
      · repeat' split
        all_goals
          first
            | exact hpr
            | exact pc_cancelPairingC _ hpr
            | exact pc_of_eq _ _ (sendPairingBroadcast_eqs _ _).1 hpr
            | exact pc_of_eq _ _ (send2ABroadcast_eqs _ _).1 hpr
            | exact pc_updateDev _ _ _ (fun d hd => hd) hpr
            | exact pc_updateDev _ _ _ (fun d hd => hd)
                (pc_of_eq _ _ (sendPriorityAddressRequest_eqs _ _ _).1 hpr)
            | exact pc_cancelPairingC _
                (pc_of_eq _ _ (sendPriorityAddressRequest_eqs _ _ _).1 hpr)
            | exact pc_updateDev _ _ _ (fun d hd => hd)
                (pc_of_eq _ _ (requestName_eqs _ _ _).1 hpr)

set_option maxHeartbeats 2000000 in
theorem pc_hppDispatchTail2 (S : GState) (env : Env) (pkt : Packet) (device : Device)
    (h : PCInv S) : PCInv (hppDispatchTail2 S env pkt device).1 := by
  simp only [hppDispatchTail2]
  split
  · split
    · exact pc_updateDev _ _ _ (fun d hd => hd) h
    · exact h
  · split
    · split
      · exact pc_updateDev _ _ _ (fun d hd => hd)
          (pc_mgrCompletePairing _ _ _
            (pc_updateDev _ _ _ (fun d hd => hd)
              (pc_of_eq _ _ (sendPriorityAddressRequest_eqs _ _ _).1 h)))
      · exact pc_updateDev _ _ _ (fun d hd => hd)
          (pc_mgrCompletePairing _ _ _
            (pc_of_eq _ _ (sendPriorityAddressRequest_eqs _ _ _).1 h))
    · split
      · split
        · exact pc_of_eq _ _ (requestGeneralInfo1_eqs _ _ _).1
            (pc_mgrUpdateName _ _ _ _ h)
        · exact h
      · split
        · split
          · exact pc_of_eq _ _ (requestGeneralInfo2_eqs _ _ _).1
              (pc_mgrUpdateGeneralInfo1 _ _ _ _ _ h)
          · exact h
        · split
          · split
            · split
              · exact pc_mgrCompletePairing _ _ _
                  (pc_updateDev _ _ _ (fun d hd => hd)
                    (pc_mgrUpdateGeneralInfo2 _ _ _ _ _ h))
              · exact pc_mgrCompletePairing _ _ _
                  (pc_mgrUpdateGeneralInfo2 _ _ _ _ _ h)
            · exact h
          · exact h

set_option maxHeartbeats 2000000 in
theorem pc_hppDispatchTail (S : GState) (env : Env) (pkt : Packet) (device : Device)
    (h : PCInv S) : PCInv (hppDispatchTail S env pkt device).1 := by
  simp only [hppDispatchTail]
  split
  · split
    · exact pc_updateDev _ _ _ (fun d hd => hd) h
    · exact h
  · split
    · split
      · split
        · split
          · exact pc_updateDev _ _ _ (fun d hd => hd)
              (pc_sendKeyTransfer _ _ _ (pc_of_eq _ _ (by rfl) h))
          · exact pc_of_eq _ _ (by rfl)
              (pc_sendKeyTransfer _ _ _ (pc_of_eq _ _ (by rfl) h))
        · exact h
      · split
        · split
          · split
            · exact pc_of_eq _ _ (sendChallengeResponse_eqs _ _ _).1
                (pc_of_eq _ _ (by rfl) h)
            · exact pc_of_eq _ _ (sendChallengeResponse_eqs _ _ _).1
                (pc_of_eq _ _ (by rfl) h)
          · exact h
        · exact h
    · exact pc_hppDispatchTail2 S env pkt device h

set_option maxHeartbeats 2000000 in
theorem pc_hppDispatch (S : GState) (env : Env) (pkt : Packet) (device : Device)
    (h : PCInv S) : PCInv (hppDispatch S env pkt device).1 := by
  simp only [hppDispatch]
  split
  · split
    · split
      · exact pc_of_eq _ _ (sendAskChallenge_eqs _ _ _).1
          (pc_updateDev _ _ _ (fun d hd => hd) h)
      · exact pc_of_eq _ _ (sendAskChallenge_eqs _ _ _).1
          (pc_updateDev _ _ _ (fun d hd => hd) h)
    · exact h
  · split
    · split
      · exact pc_updateDev _ _ _ (fun d hd => hd) h
      · exact h
    · split
      · split
        · split
          · exact pc_updateDev _ _ _ (fun d hd => hd)
              (pc_of_eq _ _ (sendChallengeToPair_eqs _ _ _).1 h)
          · exact pc_cancelPairingC _
              (pc_of_eq _ _ (sendChallengeToPair_eqs _ _ _).1 h)
        · exact h
      · split
        · exact pc_handleErrorStatus S _ h
        · split
          · split
            · split
              · exact pc_updateDev _ _ _ (fun d hd => hd) h
              · exact pc_cancelPairingC _ h
            · exact h
          · exact pc_hppDispatchTail S env pkt device h

theorem pc_handlePairingPacket (S : GState) (env : Env) (pkt : Packet)
    (h : PCInv S) : PCInv (handlePairingPacket S env pkt).1 := by
  simp only [handlePairingPacket]
  split
  · next Sf heq =>
    have hSf : PCInv Sf := by
      split at heq
      · injection heq with h1 h2
        exact h1 ▸ pc_startPairingC _ _ _ (pc_of_eq _ _ rfl h)
      · injection heq with h1 h2
        cases h2
    exact hSf
  · next S2 heq =>
    have hS2 : PCInv S2 := by
      split at heq
      · injection heq with h1 h2
        exact h1 ▸ pc_startPairingC _ _ _ (pc_of_eq _ _ rfl h)
      · injection heq with h1 h2
        exact h1 ▸ h
    clear heq h
    split
    · exact hS2
    · split
      · exact hS2
      · split
        · exact hS2
        · exact pc_hppDispatch _ _ _ _ hS2

theorem pc_handleChallenge2W (S : GState) (env : Env) (pkt : Packet)
    (h : PCInv S) : PCInv (handleChallenge2W S env pkt).1 := by
  simp only [handleChallenge2W]
  repeat' split
  all_goals
    first
      | exact h
      | exact pc_mgrStoreChallenge S _ _ _ _ h

theorem pc_cmdOnOff (S : GState) (a : Addr) (mp : Nat) (h : PCInv S) :
    PCInv (cmdOnOff S a mp).1 := by
  simp only [cmdOnOff]
  repeat' split
  all_goals
    first
      | exact h
      | exact pc_updateDev _ _ _ (fun d hd => hd) h

theorem pc_cmdAuth (S : GState) (a : Addr) (h : PCInv S) :
    PCInv (cmdAuth S a).1 := by
  simp only [cmdAuth]
  repeat' split
  all_goals
    first
      | exact h
      | exact pc_updateDev _ _ _ (fun d _ => fun hfl => Bool.noConfusion hfl) h

theorem pc_cmdDel (S : GState) (a : Addr) (h : PCInv S) : PCInv (cmdDel S a) := by
  simp only [cmdDel]
  split
  · exact h
  · exact pc_removeDev _ _ h

theorem pc_cmdReload (S : GState) (h : PCInv S) : PCInv (cmdReload S) := by
  unfold cmdReload
  exact pc_loadFromFile _ (fun p hp => nomatch hp)

theorem pc_reboot (S : GState) (h : PCInv S) : PCInv (reboot S) := by
  unfold reboot
  exact pc_loadFromFile _ (fun p hp => nomatch hp)

theorem pc_applyOp (S : GState) (op : Op) (h : PCInv S) : PCInv (applyOp S op) := by
  cases op with
  | setKey k => exact pc_of_eq _ _ rfl h
  | startPair a env => exact pc_startPairingC S a env h
  | cancelPair => exact pc_cancelPairingC S h
  | enableAutoPair => exact pc_of_eq _ _ rfl h
  | disableAutoPair => exact pc_of_eq _ _ rfl h
  | tick env => exact pc_processC S env h
  | rxPairing env pkt => exact pc_handlePairingPacket S env pkt h
  | rxChallenge env pkt => exact pc_handleChallenge2W S env pkt h
  | rxConfirm pkt =>
    show PCInv (handleConfirmation2W S pkt).1
    rw [handleConfirmation2W_fst]
    exact h
  | deviceOn a => exact pc_cmdOnOff S a _ h
  | deviceOff a => exact pc_cmdOnOff S a _ h
  | auth a => exact pc_cmdAuth S a h
  | save => exact pc_saveToFile S h
  | del a => exact pc_cmdDel S a h
  | reload => exact pc_cmdReload S h
  | restart => exact pc_reboot S h

theorem mem_of_findDev (m : Mgr) (a : Addr) (d : Device)
    (h : findDev m a = some d) : (a, d) ∈ m := by
  induction m with
  | nil => cases h
  | cons hd rest ih =>
    obtain ⟨b, e⟩ := hd
    simp only [findDev] at h
    by_cases hba : b = a
    · rw [if_pos hba] at h
      injection h with he
      subst hba
      subst he
      exact List.mem_cons_self _ _
    · rw [if_neg hba] at h
      exact List.mem_cons_of_mem _ (ih h)

/-- C6 (corrected): in every reachable state — file loads included — a raised
`pending_challenge` flag implies the device stores a six-byte challenge.  The
original claim's second half (that `last_command` is then non-empty) is
refuted by `c6_counterexample`: `handleChallenge` stores the challenge and
raises the flag even when no command was ever recorded. -/
theorem c6_pending_challenge_amended (S : GState)
    (hreach : Relation.ReflTransGen StepAll initG S)
    (a : Addr) (d : Device)
    (hfind : findDev S.mgr a = some d)
    (hflag : d.hasPendingChallenge = true) :
    d.lastChallenge.length = 6 := by
  suffices hpc : PCInv S from hpc (a, d) (mem_of_findDev S.mgr a d hfind) hflag
  clear hfind hflag
  induction hreach with
  | refl => exact fun p hp => nomatch hp
  | tail hst hstep ih =>
    obtain ⟨op, rfl⟩ := hstep
    exact pc_applyOp _ op ih

/-- C6 witness: the pairing-then-challenge trace yields a device whose flag
is raised, and the amended theorem applies to it and returns the stored
six-byte length. -/
theorem c6_pending_challenge_amended_witness :
    Relation.ReflTransGen StepAll initG
      (applyOps initG [Op.setKey (List.range 16), Op.startPair ⟨1, 2, 3⟩ ⟨0, true, false, []⟩,
        Op.rxPairing ⟨0, true, false, []⟩ ⟨⟨1, 2, 3⟩, controllerAddr, 0x33, []⟩,
        Op.rxChallenge ⟨0, true, false, []⟩ ⟨⟨1, 2, 3⟩, controllerAddr, 0x3C, [9, 8, 7, 6, 5, 4]⟩]) ∧
    findDev (applyOps initG [Op.setKey (List.range 16),
        Op.startPair ⟨1, 2, 3⟩ ⟨0, true, false, []⟩,
        Op.rxPairing ⟨0, true, false, []⟩ ⟨⟨1, 2, 3⟩, controllerAddr, 0x33, []⟩,
        Op.rxChallenge ⟨0, true, false, []⟩
          ⟨⟨1, 2, 3⟩, controllerAddr, 0x3C, [9, 8, 7, 6, 5, 4]⟩]).mgr ⟨1, 2, 3⟩
      = some ((findDev (applyOps initG [Op.setKey (List.range 16),
          Op.startPair ⟨1, 2, 3⟩ ⟨0, true, false, []⟩,
          Op.rxPairing ⟨0, true, false, []⟩ ⟨⟨1, 2, 3⟩, controllerAddr, 0x33, []⟩,
          Op.rxChallenge ⟨0, true, false, []⟩
            ⟨⟨1, 2, 3⟩, controllerAddr, 0x3C, [9, 8, 7, 6, 5, 4]⟩]).mgr ⟨1, 2, 3⟩).getD
          (mkDevice ⟨1, 2, 3⟩)) ∧
    ((findDev (applyOps initG [Op.setKey (List.range 16),
        Op.startPair ⟨1, 2, 3⟩ ⟨0, true, false, []⟩,
        Op.rxPairing ⟨0, true, false, []⟩ ⟨⟨1, 2, 3⟩, controllerAddr, 0x33, []⟩,
        Op.rxChallenge ⟨0, true, false, []⟩
          ⟨⟨1, 2, 3⟩, controllerAddr, 0x3C, [9, 8, 7, 6, 5, 4]⟩]).mgr ⟨1, 2, 3⟩).getD
        (mkDevice ⟨1, 2, 3⟩)).hasPendingChallenge = true ∧
    ((findDev (applyOps initG [Op.setKey (List.range 16),
        Op.startPair ⟨1, 2, 3⟩ ⟨0, true, false, []⟩,
        Op.rxPairing ⟨0, true, false, []⟩ ⟨⟨1, 2, 3⟩, controllerAddr, 0x33, []⟩,
        Op.rxChallenge ⟨0, true, false, []⟩
          ⟨⟨1, 2, 3⟩, controllerAddr, 0x3C, [9, 8, 7, 6, 5, 4]⟩]).mgr ⟨1, 2, 3⟩).getD
        (mkDevice ⟨1, 2, 3⟩)).lastChallenge.length = 6 :=
  ⟨reachable_applyOps _ _, by decide, by decide,
   c6_pending_challenge_amended
     (applyOps initG [Op.setKey (List.range 16),
       Op.startPair ⟨1, 2, 3⟩ ⟨0, true, false, []⟩,
       Op.rxPairing ⟨0, true, false, []⟩ ⟨⟨1, 2, 3⟩, controllerAddr, 0x33, []⟩,
       Op.rxChallenge ⟨0, true, false, []⟩
         ⟨⟨1, 2, 3⟩, controllerAddr, 0x3C, [9, 8, 7, 6, 5, 4]⟩])
     (reachable_applyOps _ _) ⟨1, 2, 3⟩ _
     (by decide) (by decide)⟩
